import Mathlib

/-! # winewayland.drv Vulkan adapter (`dlls/winewayland.drv/vulkan.c`)

A shallow embedding of the Win32-to-Wayland Vulkan surface adapter.

* C pointers are natural numbers, `0` being `NULL`; a pointer argument that
  the code only reads or writes through is passed as the value it points to
  and handed back as part of the result.
* The process state the adapter touches is a `World`: the windowing surface
  registry, the live client surfaces, the heap of adapter records and a trace
  of the external calls made so far.
* The native Vulkan library is a record of functions (`NativeVulkan`), each
  returning what the native entry point would write and return.
* Dereferencing a pointer that is not live is undefined behaviour in C; the
  functions that do so return `none` there.
-/

namespace WaylandVk

/-! ## Basic types and constants -/

abbrev Ptr := Nat
abbrev HWND := Nat
abbrev VkResult := Int
abbrev VkInstance := Nat
abbrev VkDevice := Nat
abbrev VkPhysicalDevice := Nat
abbrev VkSurfaceKHR := Nat
abbrev VkBool32 := Nat

/-- The null pointer. -/
def NULL : Ptr := 0

/-- Result code of `wine/vulkan.h` (Vulkan registry value). -/
def VK_SUCCESS : VkResult := 0

/-- Result code of `wine/vulkan.h` (Vulkan registry value). -/
def VK_INCOMPLETE : VkResult := 5

/-- Result code of `wine/vulkan.h` (Vulkan registry value). -/
def VK_ERROR_OUT_OF_HOST_MEMORY : VkResult := -1

/-- Result code of `wine/vulkan.h` (Vulkan registry value). -/
def VK_ERROR_LAYER_NOT_PRESENT : VkResult := -6

/-- Result code of `wine/vulkan.h` (Vulkan registry value). -/
def VK_ERROR_SURFACE_LOST_KHR : VkResult := -1000000000

/-- Constant of `wine/vulkan.h` (Vulkan registry value). -/
def VK_KHR_WIN32_SURFACE_SPEC_VERSION : Nat := 6

/-- Constant of `wine/vulkan.h` (Vulkan registry value). -/
def VK_KHR_WIN32_SURFACE_EXTENSION_NAME : String := "VK_KHR_win32_surface"

/-- The structure type the file defines for the Wayland create-info. -/
def VK_STRUCTURE_TYPE_WAYLAND_SURFACE_CREATE_INFO_KHR : Nat := 1000006000

/-- Conversion of a C `int` to `uint32_t`: reduction modulo `2 ^ 32`. -/
def toUInt32 (x : Int) : Nat := (x % 2 ^ 32).toNat

/-! ## Vulkan structures -/

/-- `VkExtensionProperties`: the name is the C string held in the
`extensionName` buffer. -/
structure VkExtensionProperties where
  extensionName : String
  specVersion : Nat
  deriving DecidableEq, Repr

/-- `VkInstanceCreateInfo`; the extension and layer counts are the lengths of
the two name arrays. -/
structure VkInstanceCreateInfo where
  sType : Nat
  pNext : Ptr
  flags : Nat
  pApplicationInfo : Ptr
  ppEnabledLayerNames : List String
  ppEnabledExtensionNames : List String
  deriving DecidableEq, Repr

/-- The field `enabledExtensionCount`. -/
def VkInstanceCreateInfo.enabledExtensionCount (ci : VkInstanceCreateInfo) : Nat :=
  ci.ppEnabledExtensionNames.length

/-- The field `enabledLayerCount`. -/
def VkInstanceCreateInfo.enabledLayerCount (ci : VkInstanceCreateInfo) : Nat :=
  ci.ppEnabledLayerNames.length

/-- `VkWin32SurfaceCreateInfoKHR`. -/
structure VkWin32SurfaceCreateInfoKHR where
  sType : Nat
  pNext : Ptr
  flags : Nat
  hinstance : Ptr
  hwnd : HWND
  deriving DecidableEq, Repr

/-- `VkWaylandSurfaceCreateInfoKHR`, as declared at the top of the file. -/
structure VkWaylandSurfaceCreateInfoKHR where
  sType : Nat
  pNext : Ptr
  flags : Nat
  display : Ptr
  surface : Ptr
  deriving DecidableEq, Repr

/-- `VkExtent2D`. -/
structure VkExtent2D where
  width : Nat
  height : Nat
  deriving DecidableEq, Repr

/-- `VkSurfaceCapabilitiesKHR`. -/
structure VkSurfaceCapabilitiesKHR where
  minImageCount : Nat
  maxImageCount : Nat
  currentExtent : VkExtent2D
  minImageExtent : VkExtent2D
  maxImageExtent : VkExtent2D
  maxImageArrayLayers : Nat
  supportedTransforms : Nat
  currentTransform : Nat
  supportedCompositeAlpha : Nat
  supportedUsageFlags : Nat
  deriving DecidableEq, Repr

/-- `VkSurfaceCapabilities2KHR`. -/
structure VkSurfaceCapabilities2KHR where
  sType : Nat
  pNext : Ptr
  surfaceCapabilities : VkSurfaceCapabilitiesKHR
  deriving DecidableEq, Repr

/-- `VkPhysicalDeviceSurfaceInfo2KHR`. -/
structure VkPhysicalDeviceSurfaceInfo2KHR where
  sType : Nat
  pNext : Ptr
  surface : VkSurfaceKHR
  deriving DecidableEq, Repr

/-- `VkSurfaceFormatKHR`. -/
structure VkSurfaceFormatKHR where
  format : Nat
  colorSpace : Nat
  deriving DecidableEq, Repr

/-- `VkSurfaceFormat2KHR`. -/
structure VkSurfaceFormat2KHR where
  sType : Nat
  pNext : Ptr
  surfaceFormat : VkSurfaceFormatKHR
  deriving DecidableEq, Repr

/-! ## The native Vulkan library -/

/-- The function pointers `pvk*` resolved from the native library.  A pointer
argument the native function writes through appears as an argument (the
memory before the call) and in the result (the memory after it); an array
argument that may be `NULL` is an `Option`, and the array returned is only
stored when the pointer was not `NULL`.  The two optional entry points are
`none` when the library does not export them. -/
structure NativeVulkan where
  pvkCreateInstance : VkInstanceCreateInfo → VkInstance → VkResult × VkInstance
  pvkCreateWaylandSurfaceKHR :
    VkInstance → VkWaylandSurfaceCreateInfoKHR → VkSurfaceKHR → VkResult × VkSurfaceKHR
  pvkEnumerateInstanceExtensionProperties :
    Option String → Nat → Option (List VkExtensionProperties) →
      VkResult × Nat × List VkExtensionProperties
  pvkGetDeviceProcAddr : VkDevice → String → Ptr
  pvkGetInstanceProcAddr : VkInstance → String → Ptr
  pvkGetPhysicalDeviceSurfaceCapabilities2KHR :
    Option (VkPhysicalDevice → VkPhysicalDeviceSurfaceInfo2KHR → VkSurfaceCapabilities2KHR →
      VkResult × VkSurfaceCapabilities2KHR)
  pvkGetPhysicalDeviceSurfaceCapabilitiesKHR :
    VkPhysicalDevice → VkSurfaceKHR → VkSurfaceCapabilitiesKHR →
      VkResult × VkSurfaceCapabilitiesKHR
  pvkGetPhysicalDeviceSurfaceFormats2KHR :
    Option (VkPhysicalDevice → VkPhysicalDeviceSurfaceInfo2KHR → Nat →
      Option (List VkSurfaceFormat2KHR) → VkResult × Nat × List VkSurfaceFormat2KHR)
  pvkGetPhysicalDeviceSurfaceFormatsKHR :
    VkPhysicalDevice → VkSurfaceKHR → Nat → Option (List VkSurfaceFormatKHR) →
      VkResult × Nat × List VkSurfaceFormatKHR
  pvkGetPhysicalDeviceSurfaceSupportKHR :
    VkPhysicalDevice → Nat → VkSurfaceKHR → VkBool32 → VkResult × VkBool32

/-! ## Process state -/

/-- `RECT`. -/
structure RECT where
  left : Int
  top : Int
  right : Int
  bottom : Int
  deriving DecidableEq, Repr

/-- The part of `struct wayland_surface` the adapter reads and writes:
`window.client_rect` and the back-reference `client`. -/
structure wayland_surface where
  client_rect : RECT
  client : Ptr
  deriving DecidableEq, Repr

/-- The part of `struct wayland_client_surface` the adapter depends on: the
reference count, the `wl_surface` and the user data of that `wl_surface`
(the window handle). -/
structure wayland_client_surface where
  ref : Int
  wl_surface : Ptr
  user_data : HWND
  deriving DecidableEq, Repr

/-- `struct wine_vk_surface`. -/
structure wine_vk_surface where
  client : Ptr
  native : VkSurfaceKHR
  deriving DecidableEq, Repr

/-- External calls, in the order they are made. -/
inductive Event where
  | lock (hwnd : HWND)
  | unlock (hwnd : HWND)
  | get_client (hwnd : HWND)
  | client_release (client : Ptr)
  | free (p : Ptr)
  | vkCreateInstance (info : VkInstanceCreateInfo)
  | vkCreateWaylandSurfaceKHR (inst : VkInstance) (info : VkWaylandSurfaceCreateInfoKHR)
  | vkDestroyInstance (inst : VkInstance)
  | vkDestroySurfaceKHR (inst : VkInstance) (native : VkSurfaceKHR)
  | vkEnumerateInstanceExtensionProperties
  | vkGetDeviceProcAddr (device : VkDevice) (name : String)
  | vkGetInstanceProcAddr (inst : VkInstance) (name : String)
  | vkGetPhysicalDeviceSurfaceCapabilities2KHR (native : VkSurfaceKHR)
  | vkGetPhysicalDeviceSurfaceCapabilitiesKHR (native : VkSurfaceKHR)
  | vkGetPhysicalDeviceSurfaceFormats2KHR (native : VkSurfaceKHR)
  | vkGetPhysicalDeviceSurfaceFormatsKHR (native : VkSurfaceKHR)
  | vkGetPhysicalDeviceSurfaceSupportKHR (native : VkSurfaceKHR)
  deriving DecidableEq, Repr

/-- Whether an event is a call into the native Vulkan library. -/
def Event.isNative : Event → Bool
  | .lock _ => false
  | .unlock _ => false
  | .get_client _ => false
  | .client_release _ => false
  | .free _ => false
  | _ => true

/-- Whether an event is a call of `wayland_client_surface_release`. -/
def Event.isRelease : Event → Bool
  | .client_release _ => true
  | _ => false

/-- Whether an event is a call of `wayland_surface_get_client`. -/
def Event.isGetClient : Event → Bool
  | .get_client _ => true
  | _ => false

/-- Whether an event is a call of `free`. -/
def Event.isFree : Event → Bool
  | .free _ => true
  | _ => false

/-- Whether an event takes the lock of a windowing surface. -/
def Event.isLock : Event → Bool
  | .lock _ => true
  | _ => false

/-- Whether an event releases the lock of a windowing surface. -/
def Event.isUnlock : Event → Bool
  | .unlock _ => true
  | _ => false

/-- Whether an event is a call of the native `vkDestroySurfaceKHR`. -/
def Event.isDestroySurface : Event → Bool
  | .vkDestroySurfaceKHR _ _ => true
  | _ => false

/-- The state the adapter works on.  `surfaces` is the windowing surface
registry (window handle to windowing surface), `clients` the live client
surfaces by address, `records` the allocated adapter records by address,
`wl_display` is `process_wayland.wl_display`, and `trace` lists the external
calls made so far, oldest first. -/
structure World where
  surfaces : HWND → Option wayland_surface
  clients : Ptr → Option wayland_client_surface
  records : Ptr → Option wine_vk_surface
  wl_display : Ptr
  trace : List Event

/-- Append one event to the trace. -/
def World.log (w : World) (e : Event) : World :=
  { w with trace := w.trace ++ [e] }

/-- Store `v` as the client surface at address `p` (`none`: not live). -/
def World.setClient (w : World) (p : Ptr) (v : Option wayland_client_surface) : World :=
  { w with clients := Function.update w.clients p v }

/-- Store `v` as the windowing surface of the window `hwnd`. -/
def World.setSurface (w : World) (hwnd : HWND) (v : Option wayland_surface) : World :=
  { w with surfaces := Function.update w.surfaces hwnd v }

/-- Store `v` as the adapter record at address `p` (`none`: not allocated). -/
def World.setRecord (w : World) (p : Ptr) (v : Option wine_vk_surface) : World :=
  { w with records := Function.update w.records p v }

/-- The events appended to the trace between the state `w` and a later
state `w1`. -/
def World.since (w w1 : World) : List Event :=
  w1.trace.drop w.trace.length

/-- The reference count of the client surface at `c`; a client surface that
is not live has none, counted as `0`. -/
def World.refcount (w : World) (c : Ptr) : Int :=
  match w.clients c with
  | some cs => cs.ref
  | none => 0

/-- What the allocators hand out during one call: `record` is the result of
the `calloc` of the adapter record, `client` and `wl_surface` those of the
client surface a windowing surface attaches when it has none (`0` when the
allocation fails). -/
structure Alloc where
  record : Ptr
  client : Ptr
  wl_surface : Ptr
  deriving DecidableEq, Repr

/-! ## The windowing surface subsystem (`waylanddrv.h`) -/

/-- Modelled from the spec: `wayland_surface_lock_hwnd` is defined outside
this file.  "lock surface by window handle: surface-or-null, lock held on
success": the registry entry of the window, and the lock is taken when there
is one. -/
def wayland_surface_lock_hwnd (w : World) (hwnd : HWND) : World × Option wayland_surface :=
  match w.surfaces hwnd with
  | some s => (w.log (.lock hwnd), some s)
  | none => (w, none)

/-- Modelled from the spec: `pthread_mutex_unlock` on the mutex of the
windowing surface of `hwnd` ("unlock"). -/
def pthread_mutex_unlock (w : World) (hwnd : HWND) : World :=
  w.log (.unlock hwnd)

/-- Modelled from the spec: `wayland_surface_get_client` is defined outside
this file.  "Acquire a shared reference to that surface's client-side surface
object" / "get/attach client surface object": when the windowing surface has
a client surface its reference count is incremented and it is returned;
otherwise a new client surface with one reference, whose `wl_surface` carries
the window handle as user data, is attached and returned, or `NULL` when it
cannot be created. -/
def wayland_surface_get_client (a : Alloc) (w : World) (hwnd : HWND) : Option (World × Ptr) :=
  match w.surfaces hwnd with
  | none => none
  | some s =>
    if s.client ≠ NULL then
      match w.clients s.client with
      | none => none
      | some c =>
        some ((w.setClient s.client (some { c with ref := c.ref + 1 })).log (.get_client hwnd),
          s.client)
    else if a.client = NULL then
      some (w.log (.get_client hwnd), NULL)
    else
      let c : wayland_client_surface :=
        { ref := 1, wl_surface := a.wl_surface, user_data := hwnd }
      some (((w.setClient a.client (some c)).setSurface hwnd
              (some { s with client := a.client })).log (.get_client hwnd), a.client)

/-- Modelled from the spec: `wayland_client_surface_release` is defined
outside this file.  "decrement-and-test semantics": the reference count is
decremented, and when it reaches zero the client surface is destroyed and the
call reports the last reference. -/
def wayland_client_surface_release (w : World) (client : Ptr) : Option (World × Bool) :=
  match w.clients client with
  | none => none
  | some c =>
    if c.ref - 1 ≠ 0 then
      some ((w.setClient client (some { c with ref := c.ref - 1 })).log
              (.client_release client), false)
    else
      some ((w.setClient client none).log (.client_release client), true)

/-- The C library `free` applied to an adapter record. -/
def free (w : World) (p : Ptr) : World :=
  (w.setRecord p none).log (.free p)

/-! ## The adapter (`vulkan.c`) -/

/-- `wine_vk_surface_from_handle`: the handle is the address of the record. -/
def wine_vk_surface_from_handle (handle : VkSurfaceKHR) : Ptr := handle

/-- `wine_vk_surface_get_hwnd`: the user data of the client's `wl_surface`. -/
def wine_vk_surface_get_hwnd (w : World) (s : wine_vk_surface) : Option HWND :=
  match w.clients s.client with
  | some c => some c.user_data
  | none => none

/-- `wine_vk_surface_destroy`. -/
def wine_vk_surface_destroy (w : World) (wine_vk_surface : Ptr) : Option World :=
  match w.records wine_vk_surface with
  | none => none
  | some r =>
    if r.client ≠ NULL then
      match wine_vk_surface_get_hwnd w r with
      | none => none
      | some hwnd =>
        match wayland_surface_lock_hwnd w hwnd with
        | (w1, wayland_surface) =>
          match wayland_client_surface_release w1 r.client with
          | none => none
          | some (w2, last) =>
            let w3 : World :=
              if last && wayland_surface.isSome then
                w2.setSurface hwnd ((w2.surfaces hwnd).map fun s => { s with client := NULL })
              else w2
            let w4 : World := if wayland_surface.isSome then pthread_mutex_unlock w3 hwnd else w3
            some (free w4 wine_vk_surface)
    else some (free w wine_vk_surface)

/-- `wine_vk_surface_is_valid`. -/
def wine_vk_surface_is_valid (w : World) (s : wine_vk_surface) : Option (World × Bool) :=
  match wine_vk_surface_get_hwnd w s with
  | none => none
  | some hwnd =>
    match wayland_surface_lock_hwnd w hwnd with
    | (w1, some _) => some (pthread_mutex_unlock w1 hwnd, true)
    | (w1, none) => some (w1, false)

/-- The body of the loop of `wine_vk_instance_convert_create_info`, run for
`i`, `i + 1`, ... as many times as the first argument says. -/
def convert_extensions (src : List String) : Nat → Nat → List String → List String
  | 0, _, enabled_extensions => enabled_extensions
  | k + 1, i, enabled_extensions =>
    let name := src.getD i ""
    if name = "VK_KHR_win32_surface" then
      convert_extensions src k (i + 1) (enabled_extensions.set i "VK_KHR_wayland_surface")
    else
      convert_extensions src k (i + 1) (enabled_extensions.set i name)

/-- `wine_vk_instance_convert_create_info`; `calloc_ok` tells whether the
allocation of the name array succeeds.  The result is the return value and
the contents of `dst`. -/
def wine_vk_instance_convert_create_info (calloc_ok : Bool) (src : VkInstanceCreateInfo) :
    VkResult × VkInstanceCreateInfo :=
  let dst : VkInstanceCreateInfo :=
    { sType := src.sType, flags := src.flags, pApplicationInfo := src.pApplicationInfo,
      pNext := src.pNext, ppEnabledLayerNames := [], ppEnabledExtensionNames := [] }
  if src.enabledExtensionCount > 0 then
    if !calloc_ok then (VK_ERROR_OUT_OF_HOST_MEMORY, dst)
    else
      let enabled_extensions :=
        convert_extensions src.ppEnabledExtensionNames src.enabledExtensionCount 0
          (List.replicate src.enabledExtensionCount "")
      (VK_SUCCESS, { dst with ppEnabledExtensionNames := enabled_extensions })
  else (VK_SUCCESS, dst)

/-- `wine_vk_native_fn_name`. -/
def wine_vk_native_fn_name (name : String) : String :=
  if name = "vkCreateWin32SurfaceKHR" then "vkCreateWaylandSurfaceKHR" else name

/-- `wine_vk_surface_update_caps`.  The C code computes the two differences
in `int` and stores them in `uint32_t` fields: what is stored is the
difference reduced modulo `2 ^ 32`. -/
def wine_vk_surface_update_caps (w : World) (s : wine_vk_surface)
    (caps : VkSurfaceCapabilitiesKHR) : Option (World × VkResult × VkSurfaceCapabilitiesKHR) :=
  match wine_vk_surface_get_hwnd w s with
  | none => none
  | some hwnd =>
    match wayland_surface_lock_hwnd w hwnd with
    | (w1, none) => some (w1, VK_ERROR_SURFACE_LOST_KHR, caps)
    | (w1, some wayland_surface) =>
      let client_width : Int :=
        wayland_surface.client_rect.right - wayland_surface.client_rect.left
      let client_height : Int :=
        wayland_surface.client_rect.bottom - wayland_surface.client_rect.top
      let w2 := pthread_mutex_unlock w1 hwnd
      some (w2, VK_SUCCESS,
        { caps with
          minImageExtent := { width := toUInt32 client_width, height := toUInt32 client_height }
          maxImageExtent := { width := toUInt32 client_width, height := toUInt32 client_height }
          currentExtent := { width := toUInt32 client_width, height := toUInt32 client_height } })

/-- `wayland_vkCreateInstance`; the result is the return value and the
contents of `*instance`. -/
def wayland_vkCreateInstance (vk : NativeVulkan) (calloc_ok : Bool) (w : World)
    (create_info : VkInstanceCreateInfo) (_allocator : Ptr) (inst : VkInstance) :
    World × VkResult × VkInstance :=
  match wine_vk_instance_convert_create_info calloc_ok create_info with
  | (res, create_info_host) =>
    if res ≠ VK_SUCCESS then (w, res, inst)
    else
      match vk.pvkCreateInstance create_info_host inst with
      | (res1, inst1) => (w.log (.vkCreateInstance create_info_host), res1, inst1)

/-- `wayland_vkCreateWin32SurfaceKHR`; `vk_surface` is the contents of the
caller's output handle before the call, and the result is the return value
and the contents of the output handle after it. -/
def wayland_vkCreateWin32SurfaceKHR (vk : NativeVulkan) (a : Alloc) (w : World)
    (inst : VkInstance) (create_info : VkWin32SurfaceCreateInfoKHR) (_allocator : Ptr)
    (vk_surface : VkSurfaceKHR) : Option (World × VkResult × VkSurfaceKHR) :=
  if a.record = NULL then
    some (w, VK_ERROR_OUT_OF_HOST_MEMORY, vk_surface)
  else
    let w1 := w.setRecord a.record (some { client := NULL, native := 0 })
    match wayland_surface_lock_hwnd w1 create_info.hwnd with
    | (w2, none) =>
      (wine_vk_surface_destroy w2 a.record).map
        fun w9 => (w9, VK_ERROR_OUT_OF_HOST_MEMORY, vk_surface)
    | (w2, some _) =>
      match wayland_surface_get_client a w2 create_info.hwnd with
      | none => none
      | some (w3, client) =>
        let w4 := (pthread_mutex_unlock w3 create_info.hwnd).setRecord a.record
          (some { client := client, native := 0 })
        if client = NULL then
          (wine_vk_surface_destroy w4 a.record).map
            fun w9 => (w9, VK_ERROR_OUT_OF_HOST_MEMORY, vk_surface)
        else
          match w4.clients client with
          | none => none
          | some c =>
            let create_info_host : VkWaylandSurfaceCreateInfoKHR :=
              { sType := VK_STRUCTURE_TYPE_WAYLAND_SURFACE_CREATE_INFO_KHR, pNext := NULL,
                flags := 0, display := w4.wl_display, surface := c.wl_surface }
            match vk.pvkCreateWaylandSurfaceKHR inst create_info_host 0 with
            | (res, native) =>
              let w5 := (w4.log (.vkCreateWaylandSurfaceKHR inst create_info_host)).setRecord
                a.record (some { client := client, native := native })
              if res ≠ VK_SUCCESS then
                (wine_vk_surface_destroy w5 a.record).map fun w9 => (w9, res, vk_surface)
              else some (w5, VK_SUCCESS, wine_vk_surface_from_handle a.record)

/-- `wayland_vkDestroyInstance`. -/
def wayland_vkDestroyInstance (w : World) (inst : VkInstance) (_allocator : Ptr) : World :=
  w.log (.vkDestroyInstance inst)

/-- `wayland_vkDestroySurfaceKHR`. -/
def wayland_vkDestroySurfaceKHR (w : World) (inst : VkInstance) (surface : VkSurfaceKHR)
    (_allocator : Ptr) : Option World :=
  let wine_vk_surface := wine_vk_surface_from_handle surface
  if wine_vk_surface = NULL then some w
  else
    match w.records wine_vk_surface with
    | none => none
    | some r => wine_vk_surface_destroy (w.log (.vkDestroySurfaceKHR inst r.native)) wine_vk_surface

/-- The body of the loop of `wayland_vkEnumerateInstanceExtensionProperties`,
run for `i`, `i + 1`, ... as many times as the first argument says.  An index
beyond the modelled array is outside the caller's memory and changes
nothing. -/
def fixup_extensions : Nat → Nat → List VkExtensionProperties → List VkExtensionProperties
  | 0, _, properties => properties
  | k + 1, i, properties =>
    match properties[i]? with
    | some p =>
      if p.extensionName = "VK_KHR_wayland_surface" then
        fixup_extensions k (i + 1)
          (properties.set i
            { p with extensionName := VK_KHR_WIN32_SURFACE_EXTENSION_NAME,
                     specVersion := VK_KHR_WIN32_SURFACE_SPEC_VERSION })
      else fixup_extensions k (i + 1) properties
    | none => fixup_extensions k (i + 1) properties

/-- `wayland_vkEnumerateInstanceExtensionProperties`; `count` is the contents
of `*count` and `properties` the caller's array (`none` for `NULL`), both
handed back as they are after the call. -/
def wayland_vkEnumerateInstanceExtensionProperties (vk : NativeVulkan) (w : World)
    (layer_name : Option String) (count : Nat) (properties : Option (List VkExtensionProperties)) :
    World × VkResult × Nat × Option (List VkExtensionProperties) :=
  match layer_name with
  | some _ => (w, VK_ERROR_LAYER_NOT_PRESENT, count, properties)
  | none =>
    match vk.pvkEnumerateInstanceExtensionProperties layer_name count properties with
    | (res, count1, written) =>
      let w1 := w.log .vkEnumerateInstanceExtensionProperties
      match properties with
      | none => (w1, res, count1, none)
      | some _ =>
        if res < 0 then (w1, res, count1, some written)
        else (w1, res, count1, some (fixup_extensions count1 0 written))

/-- The lookups `get_vulkan_driver_device_proc_addr` and
`get_vulkan_driver_instance_proc_addr` of `wine/vulkan_driver.h` in the
table `vulkan_funcs`; the header is not part of the file, so the two lookups
are parameters. -/
structure DriverTable where
  get_vulkan_driver_device_proc_addr : String → Ptr
  get_vulkan_driver_instance_proc_addr : VkInstance → String → Ptr

/-- `wayland_vkGetDeviceProcAddr`. -/
def wayland_vkGetDeviceProcAddr (vk : NativeVulkan) (tbl : DriverTable) (w : World)
    (device : VkDevice) (name : String) : World × Ptr :=
  let w1 := w.log (.vkGetDeviceProcAddr device (wine_vk_native_fn_name name))
  if vk.pvkGetDeviceProcAddr device (wine_vk_native_fn_name name) = NULL then (w1, NULL)
  else
    let proc_addr := tbl.get_vulkan_driver_device_proc_addr name
    if proc_addr ≠ NULL then (w1, proc_addr)
    else (w1.log (.vkGetDeviceProcAddr device name), vk.pvkGetDeviceProcAddr device name)

/-- `wayland_vkGetInstanceProcAddr`. -/
def wayland_vkGetInstanceProcAddr (vk : NativeVulkan) (tbl : DriverTable) (w : World)
    (inst : VkInstance) (name : String) : World × Ptr :=
  let w1 := w.log (.vkGetInstanceProcAddr inst (wine_vk_native_fn_name name))
  if vk.pvkGetInstanceProcAddr inst (wine_vk_native_fn_name name) = NULL then (w1, NULL)
  else
    let proc_addr := tbl.get_vulkan_driver_instance_proc_addr inst name
    if proc_addr ≠ NULL then (w1, proc_addr)
    else (w1.log (.vkGetInstanceProcAddr inst name), vk.pvkGetInstanceProcAddr inst name)

/-- `wayland_vkGetPhysicalDeviceSurfaceCapabilities2KHR`. -/
def wayland_vkGetPhysicalDeviceSurfaceCapabilities2KHR (vk : NativeVulkan) (w : World)
    (phys_dev : VkPhysicalDevice) (surface_info : VkPhysicalDeviceSurfaceInfo2KHR)
    (capabilities : VkSurfaceCapabilities2KHR) :
    Option (World × VkResult × VkSurfaceCapabilities2KHR) :=
  match w.records (wine_vk_surface_from_handle surface_info.surface) with
  | none => none
  | some wine_vk_surface =>
    let surface_info_host : VkPhysicalDeviceSurfaceInfo2KHR :=
      { surface_info with surface := wine_vk_surface.native }
    let called : World × VkResult × VkSurfaceCapabilities2KHR :=
      match vk.pvkGetPhysicalDeviceSurfaceCapabilities2KHR with
      | some f =>
        match f phys_dev surface_info_host capabilities with
        | (res, caps) =>
          (w.log (.vkGetPhysicalDeviceSurfaceCapabilities2KHR surface_info_host.surface),
            res, caps)
      | none =>
        match vk.pvkGetPhysicalDeviceSurfaceCapabilitiesKHR phys_dev surface_info_host.surface
            capabilities.surfaceCapabilities with
        | (res, caps) =>
          (w.log (.vkGetPhysicalDeviceSurfaceCapabilitiesKHR surface_info_host.surface),
            res, { capabilities with surfaceCapabilities := caps })
    match called with
    | (w1, res, caps) =>
      if res = VK_SUCCESS then
        match wine_vk_surface_update_caps w1 wine_vk_surface caps.surfaceCapabilities with
        | none => none
        | some (w2, res2, caps2) => some (w2, res2, { caps with surfaceCapabilities := caps2 })
      else some (w1, res, caps)

/-- `wayland_vkGetPhysicalDeviceSurfaceCapabilitiesKHR`. -/
def wayland_vkGetPhysicalDeviceSurfaceCapabilitiesKHR (vk : NativeVulkan) (w : World)
    (phys_dev : VkPhysicalDevice) (surface : VkSurfaceKHR)
    (capabilities : VkSurfaceCapabilitiesKHR) :
    Option (World × VkResult × VkSurfaceCapabilitiesKHR) :=
  match w.records (wine_vk_surface_from_handle surface) with
  | none => none
  | some wine_vk_surface =>
    match vk.pvkGetPhysicalDeviceSurfaceCapabilitiesKHR phys_dev wine_vk_surface.native
        capabilities with
    | (res, caps) =>
      let w1 := w.log (.vkGetPhysicalDeviceSurfaceCapabilitiesKHR wine_vk_surface.native)
      if res = VK_SUCCESS then wine_vk_surface_update_caps w1 wine_vk_surface caps
      else some (w1, res, caps)

/-- The copy loop of `wayland_vkGetPhysicalDeviceSurfaceFormats2KHR`, run for
`i`, `i + 1`, ... as many times as the first argument says.  An index beyond
either modelled array is outside the memory they stand for and changes
nothing. -/
def copy_formats (formats_host : List VkSurfaceFormatKHR) :
    Nat → Nat → List VkSurfaceFormat2KHR → List VkSurfaceFormat2KHR
  | 0, _, formats => formats
  | k + 1, i, formats =>
    match formats[i]?, formats_host[i]? with
    | some f, some h =>
      copy_formats formats_host k (i + 1) (formats.set i { f with surfaceFormat := h })
    | _, _ => copy_formats formats_host k (i + 1) formats

/-- `wayland_vkGetPhysicalDeviceSurfaceFormats2KHR`; `calloc_ok` tells
whether the allocation of the temporary array succeeds. -/
def wayland_vkGetPhysicalDeviceSurfaceFormats2KHR (vk : NativeVulkan) (calloc_ok : Bool)
    (w : World) (phys_dev : VkPhysicalDevice) (surface_info : VkPhysicalDeviceSurfaceInfo2KHR)
    (count : Nat) (formats : Option (List VkSurfaceFormat2KHR)) :
    Option (World × VkResult × Nat × Option (List VkSurfaceFormat2KHR)) :=
  match w.records (wine_vk_surface_from_handle surface_info.surface) with
  | none => none
  | some wine_vk_surface =>
    match wine_vk_surface_is_valid w wine_vk_surface with
    | none => none
    | some (w1, false) => some (w1, VK_ERROR_SURFACE_LOST_KHR, count, formats)
    | some (w1, true) =>
      let surface_info_host : VkPhysicalDeviceSurfaceInfo2KHR :=
        { surface_info with surface := wine_vk_surface.native }
      match vk.pvkGetPhysicalDeviceSurfaceFormats2KHR with
      | some f =>
        match f phys_dev surface_info_host count formats with
        | (res, count1, written) =>
          some (w1.log (.vkGetPhysicalDeviceSurfaceFormats2KHR surface_info_host.surface),
            res, count1, formats.map fun _ => written)
      | none =>
        match formats with
        | none =>
          match vk.pvkGetPhysicalDeviceSurfaceFormatsKHR phys_dev surface_info_host.surface
              count none with
          | (res, count1, _) =>
            some (w1.log (.vkGetPhysicalDeviceSurfaceFormatsKHR surface_info_host.surface),
              res, count1, none)
        | some fmts =>
          if !calloc_ok then some (w1, VK_ERROR_OUT_OF_HOST_MEMORY, count, some fmts)
          else
            let formats_host : List VkSurfaceFormatKHR :=
              List.replicate count { format := 0, colorSpace := 0 }
            match vk.pvkGetPhysicalDeviceSurfaceFormatsKHR phys_dev surface_info_host.surface
                count (some formats_host) with
            | (result, count1, written) =>
              let w2 := w1.log (.vkGetPhysicalDeviceSurfaceFormatsKHR surface_info_host.surface)
              if result = VK_SUCCESS ∨ result = VK_INCOMPLETE then
                some (w2, result, count1, some (copy_formats written count1 0 fmts))
              else some (w2, result, count1, some fmts)

/-- `wayland_vkGetPhysicalDeviceSurfaceFormatsKHR`. -/
def wayland_vkGetPhysicalDeviceSurfaceFormatsKHR (vk : NativeVulkan) (w : World)
    (phys_dev : VkPhysicalDevice) (surface : VkSurfaceKHR) (count : Nat)
    (formats : Option (List VkSurfaceFormatKHR)) :
    Option (World × VkResult × Nat × Option (List VkSurfaceFormatKHR)) :=
  match w.records (wine_vk_surface_from_handle surface) with
  | none => none
  | some wine_vk_surface =>
    match wine_vk_surface_is_valid w wine_vk_surface with
    | none => none
    | some (w1, false) => some (w1, VK_ERROR_SURFACE_LOST_KHR, count, formats)
    | some (w1, true) =>
      match vk.pvkGetPhysicalDeviceSurfaceFormatsKHR phys_dev wine_vk_surface.native
          count formats with
      | (res, count1, written) =>
        some (w1.log (.vkGetPhysicalDeviceSurfaceFormatsKHR wine_vk_surface.native),
          res, count1, formats.map fun _ => written)

/-- `wayland_vkGetPhysicalDeviceSurfaceSupportKHR`. -/
def wayland_vkGetPhysicalDeviceSurfaceSupportKHR (vk : NativeVulkan) (w : World)
    (phys_dev : VkPhysicalDevice) (index : Nat) (surface : VkSurfaceKHR)
    (supported : VkBool32) : Option (World × VkResult × VkBool32) :=
  match w.records (wine_vk_surface_from_handle surface) with
  | none => none
  | some wine_vk_surface =>
    match wine_vk_surface_is_valid w wine_vk_surface with
    | none => none
    | some (w1, false) => some (w1, VK_ERROR_SURFACE_LOST_KHR, supported)
    | some (w1, true) =>
      match vk.pvkGetPhysicalDeviceSurfaceSupportKHR phys_dev index wine_vk_surface.native
          supported with
      | (res, supported1) =>
        some (w1.log (.vkGetPhysicalDeviceSurfaceSupportKHR wine_vk_surface.native),
          res, supported1)

/-- `wayland_wine_get_native_surface`. -/
def wayland_wine_get_native_surface (w : World) (surface : VkSurfaceKHR) : Option VkSurfaceKHR :=
  (w.records (wine_vk_surface_from_handle surface)).map fun r => r.native

/-! ## Loading the native library -/

/-- The dynamic loader as `wine_vk_init` sees it: `dlopen` is the result of
`dlopen(SONAME_LIBVULKAN, RTLD_NOW)`, `0` when the library cannot be loaded,
and `dlsym handle name` is the result of `dlsym`, `0` when the library does
not export the name. -/
structure Loader where
  dlopen : Ptr
  dlsym : Ptr → String → Ptr

/-- The statics of the file that hold the binding to the native library:
`init_once` of `WAYLAND_wine_get_vulkan_driver` (whether the one-time
initialisation has run), `vulkan_handle`, the function pointers `pvk*` by the
name of the entry point, and the handles passed to `dlclose` so far. -/
structure Driver where
  init_once : Bool
  vulkan_handle : Ptr
  pvk : String → Ptr
  closed : List Ptr

/-- The statics at process start: zero-initialised. -/
def Driver.initial : Driver where
  init_once := false
  vulkan_handle := NULL
  pvk := fun _ => NULL
  closed := []

/-- The entry points `wine_vk_init` loads, in the order of the source; `true`
marks a `LOAD_FUNCPTR` line and `false` a `LOAD_OPTIONAL_FUNCPTR` line. -/
def load_sequence : List (String × Bool) :=
  [("vkCreateInstance", true),
   ("vkCreateWaylandSurfaceKHR", true),
   ("vkDestroyInstance", true),
   ("vkDestroySurfaceKHR", true),
   ("vkEnumerateInstanceExtensionProperties", true),
   ("vkGetDeviceProcAddr", true),
   ("vkGetInstanceProcAddr", true),
   ("vkGetPhysicalDeviceSurfaceCapabilities2KHR", false),
   ("vkGetPhysicalDeviceSurfaceCapabilitiesKHR", true),
   ("vkGetPhysicalDeviceSurfaceFormats2KHR", false),
   ("vkGetPhysicalDeviceSurfaceFormatsKHR", true),
   ("vkGetPhysicalDeviceSurfaceSupportKHR", true)]

/-- The `LOAD_FUNCPTR` and `LOAD_OPTIONAL_FUNCPTR` lines of `wine_vk_init`
run in order: each stores the result of `dlsym` in the function pointer, and
a `LOAD_FUNCPTR` line whose result is null jumps to `fail`.  The result is
the function pointers and whether the end of the lines was reached. -/
def load_funcptrs (ld : Loader) (vulkan_handle : Ptr) :
    List (String × Bool) → (String → Ptr) → (String → Ptr) × Bool
  | [], pvk => (pvk, true)
  | (f, required) :: rest, pvk =>
    let pvk1 := Function.update pvk f (ld.dlsym vulkan_handle f)
    if required = true ∧ ld.dlsym vulkan_handle f = NULL then (pvk1, false)
    else load_funcptrs ld vulkan_handle rest pvk1

/-- `wine_vk_init`. -/
def wine_vk_init (ld : Loader) (d : Driver) : Driver :=
  let d1 : Driver := { d with vulkan_handle := ld.dlopen }
  if d1.vulkan_handle = NULL then d1
  else
    match load_funcptrs ld d1.vulkan_handle load_sequence d1.pvk with
    | (pvk, true) => { d1 with pvk := pvk }
    | (pvk, false) =>
      { d1 with pvk := pvk, closed := d1.closed ++ [d1.vulkan_handle], vulkan_handle := NULL }

/-- The C library `pthread_once` on `init_once`: the routine runs unless it
has run before. -/
def pthread_once (d : Driver) (init_routine : Driver → Driver) : Driver :=
  if d.init_once = true then d else init_routine { d with init_once := true }

/-- The table `vulkan_funcs`, as the list of the entry points it holds. -/
def vulkan_funcs : List String :=
  ["vkCreateInstance",
   "vkCreateWin32SurfaceKHR",
   "vkDestroyInstance",
   "vkDestroySurfaceKHR",
   "vkEnumerateInstanceExtensionProperties",
   "vkGetDeviceProcAddr",
   "vkGetInstanceProcAddr",
   "vkGetPhysicalDeviceSurfaceCapabilities2KHR",
   "vkGetPhysicalDeviceSurfaceCapabilitiesKHR",
   "vkGetPhysicalDeviceSurfaceFormats2KHR",
   "vkGetPhysicalDeviceSurfaceFormatsKHR",
   "vkGetPhysicalDeviceSurfaceSupportKHR",
   "wine_get_native_surface"]

/-- `WAYLAND_wine_get_vulkan_driver`; the result is `some vulkan_funcs` for
the address of the table and `none` for `NULL`.  The constant
`WINE_VULKAN_DRIVER_VERSION` of `wine/vulkan_driver.h` is a parameter. -/
def WAYLAND_wine_get_vulkan_driver (WINE_VULKAN_DRIVER_VERSION : Nat) (ld : Loader)
    (d : Driver) (version : Nat) : Driver × Option (List String) :=
  if version ≠ WINE_VULKAN_DRIVER_VERSION then (d, none)
  else
    let d1 := pthread_once d (wine_vk_init ld)
    if d1.vulkan_handle ≠ NULL then (d1, some vulkan_funcs)
    else (d1, none)

/-! ## Sample inputs -/

/-- The extensions the sample native library reports. -/
def sampleExtensions : List VkExtensionProperties :=
  [{ extensionName := "VK_KHR_surface", specVersion := 25 },
   { extensionName := "VK_KHR_wayland_surface", specVersion := 4 },
   { extensionName := "VK_KHR_display", specVersion := 23 }]

/-- A sample native library without the two optional entry points.  It
reports `sampleExtensions`, resolves every name but `"vkMissing"`, creates
the surface `99`, writes a `640` by `480` extent into the capabilities and
reports one surface format. -/
def sampleVk : NativeVulkan where
  pvkCreateInstance := fun _ _ => (VK_SUCCESS, 7)
  pvkCreateWaylandSurfaceKHR := fun _ _ _ => (VK_SUCCESS, 99)
  pvkEnumerateInstanceExtensionProperties := fun _ count properties =>
    match properties with
    | none => (VK_SUCCESS, sampleExtensions.length, [])
    | some buf =>
      (if count < sampleExtensions.length then VK_INCOMPLETE else VK_SUCCESS,
        min count sampleExtensions.length,
        sampleExtensions.take count ++ buf.drop (min count sampleExtensions.length))
  pvkGetDeviceProcAddr := fun _ name => if name = "vkMissing" then NULL else 4096
  pvkGetInstanceProcAddr := fun _ name => if name = "vkMissing" then NULL else 8192
  pvkGetPhysicalDeviceSurfaceCapabilities2KHR := none
  pvkGetPhysicalDeviceSurfaceCapabilitiesKHR := fun _ _ caps =>
    (VK_SUCCESS,
      { caps with
        currentExtent := { width := 640, height := 480 }
        minImageExtent := { width := 1, height := 1 }
        maxImageExtent := { width := 4096, height := 4096 } })
  pvkGetPhysicalDeviceSurfaceFormats2KHR := none
  pvkGetPhysicalDeviceSurfaceFormatsKHR := fun _ _ count formats =>
    match formats with
    | none => (VK_SUCCESS, 1, [])
    | some buf =>
      if count = 0 then (VK_INCOMPLETE, 0, buf)
      else (VK_SUCCESS, 1, { format := 44, colorSpace := 0 } :: buf.drop 1)
  pvkGetPhysicalDeviceSurfaceSupportKHR := fun _ _ _ _ => (VK_SUCCESS, 1)

/-- The sample library with a surface creation that fails with the result
`-3` (`VK_ERROR_INITIALIZATION_FAILED`). -/
def failingVk : NativeVulkan :=
  { sampleVk with pvkCreateWaylandSurfaceKHR := fun _ _ _ => (-3, 0) }

/-- The sample library with the extended capability query, which writes a
`1` by `1` extent. -/
def extendedVk : NativeVulkan :=
  { sampleVk with
    pvkGetPhysicalDeviceSurfaceCapabilities2KHR := some fun _ _ caps =>
      (VK_SUCCESS,
        { caps with
          surfaceCapabilities :=
            { caps.surfaceCapabilities with currentExtent := { width := 1, height := 1 } } }) }

/-- A sample state: the window `1` has a windowing surface with an `800` by
`600` client area at `(10, 20)` and no client surface; the window `2` has a
windowing surface whose client surface, at address `64`, has two references
and is wrapped by the adapter record at address `128`; the adapter record at
address `256` wraps the client surface at `80` of the window `3`, which has
no windowing surface any more. -/
def sampleWorld : World where
  surfaces := fun hwnd =>
    if hwnd = 1 then
      some { client_rect := { left := 10, top := 20, right := 810, bottom := 620 },
             client := NULL }
    else if hwnd = 2 then
      some { client_rect := { left := 0, top := 0, right := 1024, bottom := 768 },
             client := 64 }
    else none
  clients := fun p =>
    if p = 64 then some { ref := 2, wl_surface := 65, user_data := 2 }
    else if p = 80 then some { ref := 1, wl_surface := 81, user_data := 3 }
    else none
  records := fun p =>
    if p = 128 then some { client := 64, native := 77 }
    else if p = 256 then some { client := 80, native := 78 }
    else none
  wl_display := 5
  trace := []

/-- A capabilities structure the caller has zeroed. -/
def sampleCaps : VkSurfaceCapabilitiesKHR where
  minImageCount := 0
  maxImageCount := 0
  currentExtent := { width := 0, height := 0 }
  minImageExtent := { width := 0, height := 0 }
  maxImageExtent := { width := 0, height := 0 }
  maxImageArrayLayers := 0
  supportedTransforms := 0
  currentTransform := 0
  supportedCompositeAlpha := 0
  supportedUsageFlags := 0

/-- A sample loader: the library loads at the handle `4242` and exports
every entry point but the two optional ones. -/
def sampleLoader : Loader where
  dlopen := 4242
  dlsym := fun _ name =>
    if name = "vkGetPhysicalDeviceSurfaceCapabilities2KHR" then NULL
    else if name = "vkGetPhysicalDeviceSurfaceFormats2KHR" then NULL
    else 1000 + name.length

/-- A sample loader whose library lacks `vkCreateWaylandSurfaceKHR`. -/
def noWaylandLoader : Loader where
  dlopen := 4242
  dlsym := fun _ name => if name = "vkCreateWaylandSurfaceKHR" then NULL else 1000 + name.length

/-- Two extended format records of the caller, with distinct `pNext`. -/
def sampleFormats : List VkSurfaceFormat2KHR :=
  [{ sType := 1000119002, pNext := 11, surfaceFormat := { format := 0, colorSpace := 0 } },
   { sType := 1000119002, pNext := 12, surfaceFormat := { format := 0, colorSpace := 0 } }]

/-- A sample state in which the adapter record at `384` holds the only
reference to the client surface at `72` of the window `4`, which has a
windowing surface with that client surface attached. -/
def lastRefWorld : World where
  surfaces := fun hwnd =>
    if hwnd = 4 then
      some { client_rect := { left := 0, top := 0, right := 320, bottom := 200 },
             client := 72 }
    else none
  clients := fun p =>
    if p = 72 then some { ref := 1, wl_surface := 73, user_data := 4 } else none
  records := fun p => if p = 384 then some { client := 72, native := 79 } else none
  wl_display := 5
  trace := []

/-! ## Theorems -/

/-- The enumeration loop, entry by entry: the entries at the indices the loop
visits are rewritten, the others are kept. -/
theorem fixup_extensions_get (k i : Nat) (l : List VkExtensionProperties) (j : Nat) :
    (fixup_extensions k i l)[j]? =
      if i ≤ j ∧ j < i + k then
        l[j]?.map fun p =>
          if p.extensionName = "VK_KHR_wayland_surface" then
            { extensionName := VK_KHR_WIN32_SURFACE_EXTENSION_NAME,
              specVersion := VK_KHR_WIN32_SURFACE_SPEC_VERSION }
          else p
      else l[j]? := by
  induction k generalizing i l with
  | zero =>
    have h : ¬ (i ≤ j ∧ j < i + 0) := by omega
    rw [if_neg h]
    rfl
  | succ k ih =>
    unfold fixup_extensions
    cases hi : l[i]? with
    | none =>
      simp only [ih]
      by_cases hj : j = i
      · subst hj
        have h1 : ¬ (j + 1 ≤ j ∧ j < j + 1 + k) := by omega
        simp [h1, hi]
      · have h2 : (i + 1 ≤ j ∧ j < i + 1 + k) ↔ (i ≤ j ∧ j < i + (k + 1)) := by omega
        simp only [h2]
    | some p =>
      by_cases hn : p.extensionName = "VK_KHR_wayland_surface"
      · simp only [hn, if_true, ih]
        by_cases hj : j = i
        · subst hj
          have h1 : ¬ (j + 1 ≤ j ∧ j < j + 1 + k) := by omega
          have h3 : (j ≤ j ∧ j < j + (k + 1)) := by omega
          have hlt : j < l.length := by
            rcases List.getElem?_eq_some.1 hi with ⟨h, _⟩
            exact h
          simp [h1, h3, hi, hn, List.getElem?_set, hlt]
        · have h2 : (i + 1 ≤ j ∧ j < i + 1 + k) ↔ (i ≤ j ∧ j < i + (k + 1)) := by omega
          have hne : i ≠ j := fun h => hj h.symm
          simp only [h2, List.getElem?_set_ne hne]
      · simp only [hn, if_false, ih]
        by_cases hj : j = i
        · subst hj
          have h1 : ¬ (j + 1 ≤ j ∧ j < j + 1 + k) := by omega
          have h3 : (j ≤ j ∧ j < j + (k + 1)) := by omega
          simp [h1, h3, hi, hn]
        · have h2 : (i + 1 ≤ j ∧ j < i + 1 + k) ↔ (i ≤ j ∧ j < i + (k + 1)) := by omega
          simp only [h2]

/-- The enumeration loop keeps the length of the array. -/
theorem fixup_extensions_length (k i : Nat) (l : List VkExtensionProperties) :
    (fixup_extensions k i l).length = l.length := by
  induction k generalizing i l with
  | zero => rfl
  | succ k ih =>
    unfold fixup_extensions
    cases hi : l[i]? with
    | none => simp only [ih]
    | some p =>
      by_cases hn : p.extensionName = "VK_KHR_wayland_surface"
      · simp only [hn, if_true, ih, List.length_set]
      · simp only [hn, if_false, ih]

/-- C1: when the layer name is null, the output array is not null and the
native enumeration returns a non-negative result `res` with count `n`, the
call returns `res` and `n`; every entry below `n` whose native name is
`VK_KHR_wayland_surface` comes back as `VK_KHR_win32_surface` with
`VK_KHR_WIN32_SURFACE_SPEC_VERSION`, every other entry below `n` comes back
as the native library wrote it, and so does every entry from `n` on. -/
theorem C1_enumerate_translates_wayland_surface (vk : NativeVulkan) (w : World) (count : Nat)
    (properties : List VkExtensionProperties) (res : VkResult) (n : Nat)
    (written : List VkExtensionProperties)
    (hnative : vk.pvkEnumerateInstanceExtensionProperties none count (some properties) =
      (res, n, written))
    (hres : 0 ≤ res) :
    ∃ out : List VkExtensionProperties,
      wayland_vkEnumerateInstanceExtensionProperties vk w none count (some properties) =
        (w.log .vkEnumerateInstanceExtensionProperties, res, n, some out) ∧
      out.length = written.length ∧
      (∀ i e, i < n → written[i]? = some e → e.extensionName = "VK_KHR_wayland_surface" →
        out[i]? = some { extensionName := "VK_KHR_win32_surface",
                         specVersion := VK_KHR_WIN32_SURFACE_SPEC_VERSION }) ∧
      (∀ i e, i < n → written[i]? = some e → e.extensionName ≠ "VK_KHR_wayland_surface" →
        out[i]? = some e) ∧
      (∀ i, n ≤ i → out[i]? = written[i]?) := by
  refine ⟨fixup_extensions n 0 written, ?_, ?_, ?_, ?_, ?_⟩
  · have hneg : ¬ res < 0 := not_lt.mpr hres
    simp [wayland_vkEnumerateInstanceExtensionProperties, hnative, hneg]
  · exact fixup_extensions_length n 0 written
  · intro i e hi he hname
    have hin : 0 ≤ i ∧ i < 0 + n := by omega
    rw [fixup_extensions_get, if_pos hin, he]
    simp [hname, VK_KHR_WIN32_SURFACE_EXTENSION_NAME]
  · intro i e hi he hname
    have hin : 0 ≤ i ∧ i < 0 + n := by omega
    rw [fixup_extensions_get, if_pos hin, he]
    simp [hname]
  · intro i hi
    have hout : ¬ (0 ≤ i ∧ i < 0 + n) := by omega
    rw [fixup_extensions_get, if_neg hout]

/-- C1 at the sample library, asked for two entries: the native result is
`VK_INCOMPLETE`, and the second entry comes back as the Win32 surface
extension. -/
theorem C1_enumerate_translates_wayland_surface_witness :
    sampleVk.pvkEnumerateInstanceExtensionProperties none 2
        (some [{ extensionName := "", specVersion := 0 }, { extensionName := "", specVersion := 0 }]) =
      (VK_INCOMPLETE, 2,
        [{ extensionName := "VK_KHR_surface", specVersion := 25 },
         { extensionName := "VK_KHR_wayland_surface", specVersion := 4 }]) ∧
    (0 : Int) ≤ VK_INCOMPLETE ∧
    ∃ out : List VkExtensionProperties,
      wayland_vkEnumerateInstanceExtensionProperties sampleVk sampleWorld none 2
          (some [{ extensionName := "", specVersion := 0 },
                 { extensionName := "", specVersion := 0 }]) =
        (sampleWorld.log .vkEnumerateInstanceExtensionProperties, VK_INCOMPLETE, 2, some out) ∧
      out.length = 2 ∧
      out[1]? = some { extensionName := "VK_KHR_win32_surface",
                       specVersion := VK_KHR_WIN32_SURFACE_SPEC_VERSION } ∧
      out[0]? = some { extensionName := "VK_KHR_surface", specVersion := 25 } := by
  have hnative : sampleVk.pvkEnumerateInstanceExtensionProperties none 2
        (some [{ extensionName := "", specVersion := 0 }, { extensionName := "", specVersion := 0 }]) =
      (VK_INCOMPLETE, 2,
        [{ extensionName := "VK_KHR_surface", specVersion := 25 },
         { extensionName := "VK_KHR_wayland_surface", specVersion := 4 }]) := by
    decide
  have hres : (0 : Int) ≤ VK_INCOMPLETE := by decide
  obtain ⟨out, hcall, hlen, hway, hother, _⟩ :=
    C1_enumerate_translates_wayland_surface sampleVk sampleWorld 2 _ _ _ _ hnative hres
  refine ⟨hnative, hres, out, hcall, by simpa using hlen, ?_, ?_⟩
  · exact hway 1 _ (by decide) (by rfl) (by rfl)
  · exact hother 0 _ (by decide) (by rfl) (by decide)

/-- C2: with a layer name, the enumeration returns
`VK_ERROR_LAYER_NOT_PRESENT` and hands back the state, the count and the
array as they were: the trace is unchanged, so the native enumeration is not
called, whatever the native library, the count and the array are. -/
theorem C2_enumerate_layer_not_present (vk : NativeVulkan) (w : World) (layer_name : String)
    (count : Nat) (properties : Option (List VkExtensionProperties)) :
    wayland_vkEnumerateInstanceExtensionProperties vk w (some layer_name) count properties =
      (w, VK_ERROR_LAYER_NOT_PRESENT, count, properties) := by
  rfl

/-- The conversion loop keeps the length of the array it fills. -/
theorem convert_extensions_length (src : List String) (k i : Nat) (dst : List String) :
    (convert_extensions src k i dst).length = dst.length := by
  induction k generalizing i dst with
  | zero => rfl
  | succ k ih =>
    unfold convert_extensions
    by_cases hn : src.getD i "" = "VK_KHR_win32_surface"
    · simp only [hn, if_true, ih, List.length_set]
    · simp only [hn, if_false, ih, List.length_set]

/-- The conversion loop, entry by entry: the entries at the indices the loop
visits hold the substituted source name, the others are kept. -/
theorem convert_extensions_get (src : List String) (k i : Nat) (dst : List String)
    (j : Nat) :
    (convert_extensions src k i dst)[j]? =
      if i ≤ j ∧ j < i + k ∧ j < dst.length then
        some (if src.getD j "" = "VK_KHR_win32_surface" then "VK_KHR_wayland_surface"
              else src.getD j "")
      else dst[j]? := by
  induction k generalizing i dst with
  | zero =>
    have h : ¬ (i ≤ j ∧ j < i + 0 ∧ j < dst.length) := by omega
    rw [if_neg h]
    rfl
  | succ k ih =>
    unfold convert_extensions
    by_cases hj : j = i
    · subst hj
      have h1 : ¬ (j + 1 ≤ j ∧ j < j + 1 + k ∧ j < dst.length) := by omega
      by_cases hn : src.getD j "" = "VK_KHR_win32_surface"
      · simp only [hn, if_true, ih, List.length_set, List.getElem?_set]
        by_cases hl : j < dst.length
        · have h3 : (j ≤ j ∧ j < j + (k + 1) ∧ j < dst.length) := by omega
          simp [h3, hl]
        · have h3 : ¬ (j ≤ j ∧ j < j + (k + 1) ∧ j < dst.length) := by omega
          have h4 : dst[j]? = none := List.getElem?_eq_none (by omega)
          simp [h3, hl, h4]
      · simp only [hn, if_false, ih, List.length_set, List.getElem?_set]
        by_cases hl : j < dst.length
        · have h3 : (j ≤ j ∧ j < j + (k + 1) ∧ j < dst.length) := by omega
          simp [h3, hl]
        · have h3 : ¬ (j ≤ j ∧ j < j + (k + 1) ∧ j < dst.length) := by omega
          have h4 : dst[j]? = none := List.getElem?_eq_none (by omega)
          simp [h3, hl, h4]
    · have h2 : (i + 1 ≤ j ∧ j < i + 1 + k ∧ j < dst.length) ↔
          (i ≤ j ∧ j < i + (k + 1) ∧ j < dst.length) := by omega
      have hne : i ≠ j := fun h => hj h.symm
      by_cases hn : src.getD i "" = "VK_KHR_win32_surface"
      · simp only [hn, if_true, ih, List.length_set, List.getElem?_set_ne hne, h2]
      · simp only [hn, if_false, ih, List.length_set, List.getElem?_set_ne hne, h2]

/-- C10: when the name array can be allocated, the conversion returns
`VK_SUCCESS`; the native create-info has the application's extension count,
at every index the name `VK_KHR_wayland_surface` where the application's
name is `VK_KHR_win32_surface` and the application's name otherwise; `sType`,
`flags`, `pApplicationInfo` and `pNext` are copied and the layer count is
`0`.  It is this create-info that `wayland_vkCreateInstance` hands to the
native `vkCreateInstance`. -/
theorem C10_convert_create_info_substitutes (src : VkInstanceCreateInfo) :
    (wine_vk_instance_convert_create_info true src).1 = VK_SUCCESS ∧
    (wine_vk_instance_convert_create_info true src).2.enabledExtensionCount =
      src.enabledExtensionCount ∧
    (∀ (i : Nat) (name : String), src.ppEnabledExtensionNames[i]? = some name →
      (wine_vk_instance_convert_create_info true src).2.ppEnabledExtensionNames[i]? =
        some (if name = "VK_KHR_win32_surface" then "VK_KHR_wayland_surface" else name)) ∧
    (wine_vk_instance_convert_create_info true src).2.sType = src.sType ∧
    (wine_vk_instance_convert_create_info true src).2.flags = src.flags ∧
    (wine_vk_instance_convert_create_info true src).2.pApplicationInfo = src.pApplicationInfo ∧
    (wine_vk_instance_convert_create_info true src).2.pNext = src.pNext ∧
    (wine_vk_instance_convert_create_info true src).2.enabledLayerCount = 0 ∧
    (∀ (vk : NativeVulkan) (w : World) (allocator : Ptr) (inst : VkInstance),
      (w.since (wayland_vkCreateInstance vk true w src allocator inst).1) =
        [.vkCreateInstance (wine_vk_instance_convert_create_info true src).2]) := by
  by_cases h0 : src.enabledExtensionCount > 0
  · have hconv : wine_vk_instance_convert_create_info true src =
        (VK_SUCCESS,
          { sType := src.sType, flags := src.flags, pApplicationInfo := src.pApplicationInfo,
            pNext := src.pNext, ppEnabledLayerNames := [],
            ppEnabledExtensionNames :=
              convert_extensions src.ppEnabledExtensionNames src.enabledExtensionCount 0
                (List.replicate src.enabledExtensionCount "") }) := by
      simp [wine_vk_instance_convert_create_info, h0]
    rw [hconv]
    refine ⟨rfl, ?_, ?_, rfl, rfl, rfl, rfl, rfl, ?_⟩
    · simp [VkInstanceCreateInfo.enabledExtensionCount, convert_extensions_length]
    · intro i name hi
      have hlt : i < src.ppEnabledExtensionNames.length := by
        rcases List.getElem?_eq_some.1 hi with ⟨h, _⟩
        exact h
      have hget : src.ppEnabledExtensionNames.getD i "" = name := by
        simp [List.getD_eq_getElem?_getD, hi]
      have hin : 0 ≤ i ∧ i < 0 + src.enabledExtensionCount ∧
          i < (List.replicate src.enabledExtensionCount "").length := by
        simp [VkInstanceCreateInfo.enabledExtensionCount, hlt]
      simp only [convert_extensions_get, if_pos hin, hget]
    · intro vk w allocator inst
      simp [wayland_vkCreateInstance, hconv, World.since, World.log, VK_SUCCESS]
  · have hnil : src.ppEnabledExtensionNames = [] := by
      have : src.ppEnabledExtensionNames.length = 0 := by
        simp only [VkInstanceCreateInfo.enabledExtensionCount] at h0
        omega
      exact List.length_eq_zero.1 this
    have hconv : wine_vk_instance_convert_create_info true src =
        (VK_SUCCESS,
          { sType := src.sType, flags := src.flags, pApplicationInfo := src.pApplicationInfo,
            pNext := src.pNext, ppEnabledLayerNames := [], ppEnabledExtensionNames := [] }) := by
      simp [wine_vk_instance_convert_create_info, h0]
    rw [hconv]
    refine ⟨rfl, ?_, ?_, rfl, rfl, rfl, rfl, rfl, ?_⟩
    · simp [VkInstanceCreateInfo.enabledExtensionCount, hnil]
    · intro i name hi
      simp [hnil] at hi
    · intro vk w allocator inst
      simp [wayland_vkCreateInstance, hconv, World.since, World.log, VK_SUCCESS]

/-- C10 at a create-info that enables `VK_KHR_surface` and
`VK_KHR_win32_surface`: the native create-info enables `VK_KHR_surface` and
`VK_KHR_wayland_surface`. -/
theorem C10_convert_create_info_substitutes_witness :
    (wine_vk_instance_convert_create_info true
      { sType := 1, pNext := 0, flags := 0, pApplicationInfo := 24,
        ppEnabledLayerNames := ["VK_LAYER_KHRONOS_validation"],
        ppEnabledExtensionNames := ["VK_KHR_surface", "VK_KHR_win32_surface"] }).2
        |>.ppEnabledExtensionNames[1]? = some "VK_KHR_wayland_surface" ∧
    wine_vk_instance_convert_create_info true
      { sType := 1, pNext := 0, flags := 0, pApplicationInfo := 24,
        ppEnabledLayerNames := ["VK_LAYER_KHRONOS_validation"],
        ppEnabledExtensionNames := ["VK_KHR_surface", "VK_KHR_win32_surface"] } =
      (VK_SUCCESS,
        { sType := 1, pNext := 0, flags := 0, pApplicationInfo := 24,
          ppEnabledLayerNames := [],
          ppEnabledExtensionNames := ["VK_KHR_surface", "VK_KHR_wayland_surface"] }) :=
  ⟨(C10_convert_create_info_substitutes
      { sType := 1, pNext := 0, flags := 0, pApplicationInfo := 24,
        ppEnabledLayerNames := ["VK_LAYER_KHRONOS_validation"],
        ppEnabledExtensionNames := ["VK_KHR_surface", "VK_KHR_win32_surface"] }).2.2.1 1
      "VK_KHR_win32_surface" rfl,
   by decide⟩

/-- C9: both resolvers return null when the native resolver cannot resolve
the native name, which is `vkCreateWaylandSurfaceKHR` for
`vkCreateWin32SurfaceKHR` and the name itself otherwise; when it can, they
return the entry of the driver table for the requested name if there is one,
and the native resolver's result for the requested name if there is none. -/
theorem C9_proc_addr_resolution (vk : NativeVulkan) (tbl : DriverTable) (w : World)
    (inst : VkInstance) (device : VkDevice) (name : String) :
    (wayland_vkGetInstanceProcAddr vk tbl w inst name).2 =
      (if vk.pvkGetInstanceProcAddr inst
            (if name = "vkCreateWin32SurfaceKHR" then "vkCreateWaylandSurfaceKHR" else name) =
            NULL then NULL
       else if tbl.get_vulkan_driver_instance_proc_addr inst name ≠ NULL then
         tbl.get_vulkan_driver_instance_proc_addr inst name
       else vk.pvkGetInstanceProcAddr inst name) ∧
    (wayland_vkGetDeviceProcAddr vk tbl w device name).2 =
      (if vk.pvkGetDeviceProcAddr device
            (if name = "vkCreateWin32SurfaceKHR" then "vkCreateWaylandSurfaceKHR" else name) =
            NULL then NULL
       else if tbl.get_vulkan_driver_device_proc_addr name ≠ NULL then
         tbl.get_vulkan_driver_device_proc_addr name
       else vk.pvkGetDeviceProcAddr device name) := by
  constructor
  · simp only [wayland_vkGetInstanceProcAddr, wine_vk_native_fn_name]
    split_ifs <;> rfl
  · simp only [wayland_vkGetDeviceProcAddr, wine_vk_native_fn_name]
    split_ifs <;> rfl

/-- C6: destroying the null surface handle hands back the state as it was,
for every instance and allocator: the registry, the client surfaces and the
adapter records are unchanged and the trace gains no event, so there is no
native destroy call, no lock, no release and no `free`. -/
theorem C6_destroy_null_surface_noop (w : World) (inst : VkInstance) (allocator : Ptr) :
    wayland_vkDestroySurfaceKHR w inst 0 allocator = some w := by
  rfl

/-- A successful `wine_vk_surface_update_caps` has found the windowing
surface of the window of the record's client surface and has stored its
client-area size in the three extents, leaving the other fields alone. -/
theorem update_caps_success (w w1 : World) (r : wine_vk_surface)
    (caps out : VkSurfaceCapabilitiesKHR)
    (h : wine_vk_surface_update_caps w r caps = some (w1, VK_SUCCESS, out)) :
    ∃ c s, w.clients r.client = some c ∧ w.surfaces c.user_data = some s ∧
      out.minImageExtent =
        { width := toUInt32 (s.client_rect.right - s.client_rect.left),
          height := toUInt32 (s.client_rect.bottom - s.client_rect.top) } ∧
      out.maxImageExtent = out.minImageExtent ∧
      out.currentExtent = out.minImageExtent := by
  unfold wine_vk_surface_update_caps wine_vk_surface_get_hwnd at h
  cases hc : w.clients r.client with
  | none => simp [hc] at h
  | some c =>
    cases hs : w.surfaces c.user_data with
    | none =>
      simp [hc, wayland_surface_lock_hwnd, hs, VK_ERROR_SURFACE_LOST_KHR, VK_SUCCESS] at h
    | some s =>
      simp only [hc, wayland_surface_lock_hwnd, hs, Option.some.injEq, Prod.mk.injEq] at h
      obtain ⟨_, _, hout⟩ := h
      subst hout
      exact ⟨c, s, rfl, hs, rfl, rfl, rfl⟩

/-- Conversion to `uint32_t` keeps a value that fits. -/
theorem toUInt32_of_fits (x : Int) (h0 : 0 ≤ x) (h1 : x < 2 ^ 32) : (toUInt32 x : Int) = x := by
  unfold toUInt32
  rw [Int.emod_eq_of_lt h0 h1]
  exact Int.toNat_of_nonneg h0

/-- C3: whenever a capability query returns `VK_SUCCESS`, in the
non-extended form or in the extended form with or without the native
extended entry point, the window of the surface has a windowing surface in
the registry and the returned `minImageExtent`, `maxImageExtent` and
`currentExtent` are all its client-area size: the width is
`client_rect.right - client_rect.left` and the height
`client_rect.bottom - client_rect.top`, converted to `uint32_t` as the C
assignment does, which is the difference itself when it is not negative and
fits.  What the native library wrote into the extents does not appear. -/
theorem C3_capabilities_report_client_area (vk : NativeVulkan) (w : World)
    (phys_dev : VkPhysicalDevice) (surface : VkSurfaceKHR)
    (info : VkPhysicalDeviceSurfaceInfo2KHR) (caps : VkSurfaceCapabilitiesKHR)
    (caps2 : VkSurfaceCapabilities2KHR) :
    (∀ w1 out,
      wayland_vkGetPhysicalDeviceSurfaceCapabilitiesKHR vk w phys_dev surface caps =
        some (w1, VK_SUCCESS, out) →
      ∃ r c s, w.records surface = some r ∧ w.clients r.client = some c ∧
        w.surfaces c.user_data = some s ∧
        out.minImageExtent =
          { width := toUInt32 (s.client_rect.right - s.client_rect.left),
            height := toUInt32 (s.client_rect.bottom - s.client_rect.top) } ∧
        out.maxImageExtent = out.minImageExtent ∧
        out.currentExtent = out.minImageExtent ∧
        (0 ≤ s.client_rect.right - s.client_rect.left →
          s.client_rect.right - s.client_rect.left < 2 ^ 32 →
          (out.currentExtent.width : Int) = s.client_rect.right - s.client_rect.left) ∧
        (0 ≤ s.client_rect.bottom - s.client_rect.top →
          s.client_rect.bottom - s.client_rect.top < 2 ^ 32 →
          (out.currentExtent.height : Int) = s.client_rect.bottom - s.client_rect.top)) ∧
    (∀ w1 out,
      wayland_vkGetPhysicalDeviceSurfaceCapabilities2KHR vk w phys_dev info caps2 =
        some (w1, VK_SUCCESS, out) →
      ∃ r c s, w.records info.surface = some r ∧ w.clients r.client = some c ∧
        w.surfaces c.user_data = some s ∧
        out.surfaceCapabilities.minImageExtent =
          { width := toUInt32 (s.client_rect.right - s.client_rect.left),
            height := toUInt32 (s.client_rect.bottom - s.client_rect.top) } ∧
        out.surfaceCapabilities.maxImageExtent = out.surfaceCapabilities.minImageExtent ∧
        out.surfaceCapabilities.currentExtent = out.surfaceCapabilities.minImageExtent ∧
        (0 ≤ s.client_rect.right - s.client_rect.left →
          s.client_rect.right - s.client_rect.left < 2 ^ 32 →
          (out.surfaceCapabilities.currentExtent.width : Int) =
            s.client_rect.right - s.client_rect.left) ∧
        (0 ≤ s.client_rect.bottom - s.client_rect.top →
          s.client_rect.bottom - s.client_rect.top < 2 ^ 32 →
          (out.surfaceCapabilities.currentExtent.height : Int) =
            s.client_rect.bottom - s.client_rect.top)) := by
  constructor
  · intro w1 out h
    unfold wayland_vkGetPhysicalDeviceSurfaceCapabilitiesKHR wine_vk_surface_from_handle at h
    cases hr : w.records surface with
    | none => simp [hr] at h
    | some r =>
      simp only [hr] at h
      split at h
      · obtain ⟨c, s, hc, hs, hmin, hmax, hcur⟩ := update_caps_success _ _ _ _ _ h
        refine ⟨r, c, s, rfl, hc, hs, hmin, hmax, hcur, ?_, ?_⟩
        · intro h0 h1
          rw [hcur, hmin]
          exact toUInt32_of_fits _ h0 h1
        · intro h0 h1
          rw [hcur, hmin]
          exact toUInt32_of_fits _ h0 h1
      · rename_i hres
        simp only [Option.some.injEq, Prod.mk.injEq] at h
        exact absurd h.2.1 hres
  · intro w1 out h
    unfold wayland_vkGetPhysicalDeviceSurfaceCapabilities2KHR wine_vk_surface_from_handle at h
    cases hr : w.records info.surface with
    | none => simp [hr] at h
    | some r =>
      cases hf : vk.pvkGetPhysicalDeviceSurfaceCapabilities2KHR with
      | none =>
        simp only [hr, hf] at h
        split at h
        · split at h
          · simp at h
          · rename_i w2 res2 c2 hu
            simp only [Option.some.injEq, Prod.mk.injEq] at h
            obtain ⟨_, hres2, hout⟩ := h
            subst hres2
            subst hout
            obtain ⟨c, s, hc, hs, hmin, hmax, hcur⟩ := update_caps_success _ _ _ _ _ hu
            refine ⟨r, c, s, rfl, hc, hs, hmin, hmax, hcur, ?_, ?_⟩
            · intro h0 h1
              show ((c2.currentExtent.width : Nat) : Int) = _
              rw [hcur, hmin]
              exact toUInt32_of_fits _ h0 h1
            · intro h0 h1
              show ((c2.currentExtent.height : Nat) : Int) = _
              rw [hcur, hmin]
              exact toUInt32_of_fits _ h0 h1
        · rename_i hres
          simp only [Option.some.injEq, Prod.mk.injEq] at h
          exact absurd h.2.1 hres
      | some f =>
        simp only [hr, hf] at h
        split at h
        · split at h
          · simp at h
          · rename_i w2 res2 c2 hu
            simp only [Option.some.injEq, Prod.mk.injEq] at h
            obtain ⟨_, hres2, hout⟩ := h
            subst hres2
            subst hout
            obtain ⟨c, s, hc, hs, hmin, hmax, hcur⟩ := update_caps_success _ _ _ _ _ hu
            refine ⟨r, c, s, rfl, hc, hs, hmin, hmax, hcur, ?_, ?_⟩
            · intro h0 h1
              show ((c2.currentExtent.width : Nat) : Int) = _
              rw [hcur, hmin]
              exact toUInt32_of_fits _ h0 h1
            · intro h0 h1
              show ((c2.currentExtent.height : Nat) : Int) = _
              rw [hcur, hmin]
              exact toUInt32_of_fits _ h0 h1
        · rename_i hres
          simp only [Option.some.injEq, Prod.mk.injEq] at h
          exact absurd h.2.1 hres

/-- C3 at the sample state: the sample library writes a `640` by `480`
extent for the surface of the window `2`, whose client area is `1024` by
`768`; the query returns `VK_SUCCESS` and the three extents are `1024` by
`768`.  The extended query, with a library that has the extended entry point
and writes a `1` by `1` extent, returns `1024` by `768` as well. -/
theorem C3_capabilities_report_client_area_witness :
    (∃ w1 out,
      wayland_vkGetPhysicalDeviceSurfaceCapabilitiesKHR sampleVk sampleWorld 0 128 sampleCaps =
        some (w1, VK_SUCCESS, out) ∧
      (sampleVk.pvkGetPhysicalDeviceSurfaceCapabilitiesKHR 0 77 sampleCaps).2.currentExtent =
        { width := 640, height := 480 } ∧
      (∃ r c s, sampleWorld.records 128 = some r ∧ sampleWorld.clients r.client = some c ∧
        sampleWorld.surfaces c.user_data = some s ∧
        out.minImageExtent =
          { width := toUInt32 (s.client_rect.right - s.client_rect.left),
            height := toUInt32 (s.client_rect.bottom - s.client_rect.top) } ∧
        out.maxImageExtent = out.minImageExtent ∧
        out.currentExtent = out.minImageExtent ∧
        (0 ≤ s.client_rect.right - s.client_rect.left →
          s.client_rect.right - s.client_rect.left < 2 ^ 32 →
          (out.currentExtent.width : Int) = s.client_rect.right - s.client_rect.left) ∧
        (0 ≤ s.client_rect.bottom - s.client_rect.top →
          s.client_rect.bottom - s.client_rect.top < 2 ^ 32 →
          (out.currentExtent.height : Int) = s.client_rect.bottom - s.client_rect.top)) ∧
      out.minImageExtent = { width := 1024, height := 768 } ∧
      out.maxImageExtent = { width := 1024, height := 768 } ∧
      out.currentExtent = { width := 1024, height := 768 }) ∧
    (∃ w1 out,
      wayland_vkGetPhysicalDeviceSurfaceCapabilities2KHR extendedVk sampleWorld 0
          { sType := 0, pNext := 0, surface := 128 }
          { sType := 0, pNext := 0, surfaceCapabilities := sampleCaps } =
        some (w1, VK_SUCCESS, out) ∧
      out.surfaceCapabilities.minImageExtent = { width := 1024, height := 768 } ∧
      out.surfaceCapabilities.maxImageExtent = { width := 1024, height := 768 } ∧
      out.surfaceCapabilities.currentExtent = { width := 1024, height := 768 }) :=
  ⟨⟨_, _, rfl, rfl,
    (C3_capabilities_report_client_area sampleVk sampleWorld 0 128
      { sType := 0, pNext := 0, surface := 128 } sampleCaps
      { sType := 0, pNext := 0, surfaceCapabilities := sampleCaps } |>.1) _ _ rfl,
    by decide, by decide, by decide⟩,
   ⟨_, _, rfl, by decide, by decide, by decide⟩⟩

/-- C4: when the window of a surface's client surface has no windowing
surface any more, the two format queries and the support query return
`VK_ERROR_SURFACE_LOST_KHR` and hand back the state and the caller's count,
formats and `supported` as they were; the trace is unchanged, so no native
call is made. -/
theorem C4_queries_on_lost_surface (vk : NativeVulkan) (calloc_ok : Bool) (w : World)
    (phys_dev : VkPhysicalDevice) (index : Nat) (surface : VkSurfaceKHR)
    (info : VkPhysicalDeviceSurfaceInfo2KHR) (count : Nat)
    (formats : Option (List VkSurfaceFormatKHR)) (formats2 : Option (List VkSurfaceFormat2KHR))
    (supported : VkBool32) (r : wine_vk_surface) (c : wayland_client_surface)
    (hrec : w.records surface = some r) (hinfo : info.surface = surface)
    (hclient : w.clients r.client = some c)
    (hlost : (wayland_surface_lock_hwnd w c.user_data).2 = none) :
    wayland_vkGetPhysicalDeviceSurfaceFormatsKHR vk w phys_dev surface count formats =
      some (w, VK_ERROR_SURFACE_LOST_KHR, count, formats) ∧
    wayland_vkGetPhysicalDeviceSurfaceFormats2KHR vk calloc_ok w phys_dev info count formats2 =
      some (w, VK_ERROR_SURFACE_LOST_KHR, count, formats2) ∧
    wayland_vkGetPhysicalDeviceSurfaceSupportKHR vk w phys_dev index surface supported =
      some (w, VK_ERROR_SURFACE_LOST_KHR, supported) := by
  have hs : w.surfaces c.user_data = none := by
    unfold wayland_surface_lock_hwnd at hlost
    cases h : w.surfaces c.user_data with
    | none => rfl
    | some s => simp [h] at hlost
  have hvalid : wine_vk_surface_is_valid w r = some (w, false) := by
    simp [wine_vk_surface_is_valid, wine_vk_surface_get_hwnd, hclient,
      wayland_surface_lock_hwnd, hs]
  subst hinfo
  refine ⟨?_, ?_, ?_⟩
  · simp [wayland_vkGetPhysicalDeviceSurfaceFormatsKHR, wine_vk_surface_from_handle, hrec,
      hvalid]
  · simp [wayland_vkGetPhysicalDeviceSurfaceFormats2KHR, wine_vk_surface_from_handle, hrec,
      hvalid]
  · simp [wayland_vkGetPhysicalDeviceSurfaceSupportKHR, wine_vk_surface_from_handle, hrec,
      hvalid]

/-- C4 at the sample state: the record at `256` wraps the client surface of
the window `3`, which has no windowing surface. -/
theorem C4_queries_on_lost_surface_witness :
    sampleWorld.records 256 = some { client := 80, native := 78 } ∧
    sampleWorld.clients 80 = some { ref := 1, wl_surface := 81, user_data := 3 } ∧
    (wayland_surface_lock_hwnd sampleWorld 3).2 = none ∧
    wayland_vkGetPhysicalDeviceSurfaceFormatsKHR sampleVk sampleWorld 0 256 4 none =
      some (sampleWorld, VK_ERROR_SURFACE_LOST_KHR, 4, none) ∧
    wayland_vkGetPhysicalDeviceSurfaceFormats2KHR sampleVk true sampleWorld 0
        { sType := 0, pNext := 0, surface := 256 } 4 none =
      some (sampleWorld, VK_ERROR_SURFACE_LOST_KHR, 4, none) ∧
    wayland_vkGetPhysicalDeviceSurfaceSupportKHR sampleVk sampleWorld 0 0 256 0 =
      some (sampleWorld, VK_ERROR_SURFACE_LOST_KHR, 0) :=
  ⟨rfl, rfl, rfl,
    C4_queries_on_lost_surface sampleVk true sampleWorld 0 0 256
      { sType := 0, pNext := 0, surface := 256 } 4 none none 0
      { client := 80, native := 78 } { ref := 1, wl_surface := 81, user_data := 3 }
      rfl rfl rfl rfl⟩

/-- What `wine_vk_surface_destroy` does to a record that holds a live client
surface: it returns, having released the client surface once and freed the
record once, without any native call. -/
theorem wine_vk_surface_destroy_live (w : World) (p : Ptr) (r : wine_vk_surface)
    (c : wayland_client_surface) (hr : w.records p = some r) (hne : r.client ≠ NULL)
    (hc : w.clients r.client = some c) :
    ∃ w1 l, wine_vk_surface_destroy w p = some w1 ∧ w1.trace = w.trace ++ l ∧
      l.countP Event.isRelease = 1 ∧ l.count (.client_release r.client) = 1 ∧
      l.countP Event.isFree = 1 ∧ l.count (.free p) = 1 ∧
      l.countP Event.isNative = 0 ∧ l.countP Event.isGetClient = 0 ∧
      l.countP Event.isDestroySurface = 0 ∧
      w1.records = Function.update w.records p none ∧
      (∀ q, w1.refcount q = if q = r.client then w.refcount q - 1 else w.refcount q) := by
  cases hs : w.surfaces c.user_data with
  | none =>
    by_cases hlast : c.ref - 1 ≠ 0
    · obtain ⟨w1, hw1⟩ : ∃ w1, wine_vk_surface_destroy w p = some w1 := by
        simp [wine_vk_surface_destroy, hr, hne, wine_vk_surface_get_hwnd, hc,
          wayland_surface_lock_hwnd, hs, wayland_client_surface_release, hlast, World.log,
          World.setClient]
      refine ⟨w1, [.client_release r.client, .free p], hw1, ?_⟩
      simp [wine_vk_surface_destroy, hr, hne, wine_vk_surface_get_hwnd, hc,
        wayland_surface_lock_hwnd, hs, wayland_client_surface_release, hlast, World.log,
        World.setClient] at hw1
      subst hw1
      refine ⟨?_, ?_, ?_, ?_, ?_, ?_, ?_, ?_, ?_, ?_⟩
      · simp [free, World.log, World.setRecord, World.setClient, World.setSurface,
          pthread_mutex_unlock]
      · simp [Event.isRelease]
      · simp
      · simp [Event.isFree]
      · simp
      · simp [Event.isNative]
      · simp [Event.isGetClient]
      · simp [Event.isDestroySurface]
      · simp [free, World.log, World.setRecord, World.setClient, World.setSurface,
          pthread_mutex_unlock]
      · intro q
        by_cases hq : q = r.client
        · subst hq
          simp [free, World.log, World.setRecord, World.setClient, World.setSurface,
            pthread_mutex_unlock, World.refcount, hc]
        · simp [free, World.log, World.setRecord, World.setClient, World.setSurface,
            pthread_mutex_unlock, World.refcount, hq]
    · obtain ⟨w1, hw1⟩ : ∃ w1, wine_vk_surface_destroy w p = some w1 := by
        simp [wine_vk_surface_destroy, hr, hne, wine_vk_surface_get_hwnd, hc,
          wayland_surface_lock_hwnd, hs, wayland_client_surface_release, hlast, World.log,
          World.setClient]
      refine ⟨w1, [.client_release r.client, .free p], hw1, ?_⟩
      simp [wine_vk_surface_destroy, hr, hne, wine_vk_surface_get_hwnd, hc,
        wayland_surface_lock_hwnd, hs, wayland_client_surface_release, hlast, World.log,
        World.setClient] at hw1
      subst hw1
      refine ⟨?_, ?_, ?_, ?_, ?_, ?_, ?_, ?_, ?_, ?_⟩
      · simp [free, World.log, World.setRecord, World.setClient, World.setSurface,
          pthread_mutex_unlock]
      · simp [Event.isRelease]
      · simp
      · simp [Event.isFree]
      · simp
      · simp [Event.isNative]
      · simp [Event.isGetClient]
      · simp [Event.isDestroySurface]
      · simp [free, World.log, World.setRecord, World.setClient, World.setSurface,
          pthread_mutex_unlock]
      · intro q
        by_cases hq : q = r.client
        · subst hq
          simp [free, World.log, World.setRecord, World.setClient, World.setSurface,
            pthread_mutex_unlock, World.refcount, hc]
          omega
        · simp [free, World.log, World.setRecord, World.setClient, World.setSurface,
            pthread_mutex_unlock, World.refcount, hq]
  | some s =>
    by_cases hlast : c.ref - 1 ≠ 0
    · obtain ⟨w1, hw1⟩ : ∃ w1, wine_vk_surface_destroy w p = some w1 := by
        simp [wine_vk_surface_destroy, hr, hne, wine_vk_surface_get_hwnd, hc,
          wayland_surface_lock_hwnd, hs, wayland_client_surface_release, hlast, World.log,
          World.setClient]
      refine ⟨w1, [.lock c.user_data, .client_release r.client, .unlock c.user_data, .free p], hw1, ?_⟩
      simp [wine_vk_surface_destroy, hr, hne, wine_vk_surface_get_hwnd, hc,
        wayland_surface_lock_hwnd, hs, wayland_client_surface_release, hlast, World.log,
        World.setClient] at hw1
      subst hw1
      refine ⟨?_, ?_, ?_, ?_, ?_, ?_, ?_, ?_, ?_, ?_⟩
      · simp [free, World.log, World.setRecord, World.setClient, World.setSurface,
          pthread_mutex_unlock]
      · simp [Event.isRelease]
      · simp
      · simp [Event.isFree]
      · simp
      · simp [Event.isNative]
      · simp [Event.isGetClient]
      · simp [Event.isDestroySurface]
      · simp [free, World.log, World.setRecord, World.setClient, World.setSurface,
          pthread_mutex_unlock]
      · intro q
        by_cases hq : q = r.client
        · subst hq
          simp [free, World.log, World.setRecord, World.setClient, World.setSurface,
            pthread_mutex_unlock, World.refcount, hc]
        · simp [free, World.log, World.setRecord, World.setClient, World.setSurface,
            pthread_mutex_unlock, World.refcount, hq]
    · obtain ⟨w1, hw1⟩ : ∃ w1, wine_vk_surface_destroy w p = some w1 := by
        simp [wine_vk_surface_destroy, hr, hne, wine_vk_surface_get_hwnd, hc,
          wayland_surface_lock_hwnd, hs, wayland_client_surface_release, hlast, World.log,
          World.setClient]
      refine ⟨w1, [.lock c.user_data, .client_release r.client, .unlock c.user_data, .free p], hw1, ?_⟩
      simp [wine_vk_surface_destroy, hr, hne, wine_vk_surface_get_hwnd, hc,
        wayland_surface_lock_hwnd, hs, wayland_client_surface_release, hlast, World.log,
        World.setClient] at hw1
      subst hw1
      refine ⟨?_, ?_, ?_, ?_, ?_, ?_, ?_, ?_, ?_, ?_⟩
      · simp [free, World.log, World.setRecord, World.setClient, World.setSurface,
          pthread_mutex_unlock]
      · simp [Event.isRelease]
      · simp
      · simp [Event.isFree]
      · simp
      · simp [Event.isNative]
      · simp [Event.isGetClient]
      · simp [Event.isDestroySurface]
      · simp [free, World.log, World.setRecord, World.setClient, World.setSurface,
          pthread_mutex_unlock]
      · intro q
        by_cases hq : q = r.client
        · subst hq
          simp [free, World.log, World.setRecord, World.setClient, World.setSurface,
            pthread_mutex_unlock, World.refcount, hc]
          omega
        · simp [free, World.log, World.setRecord, World.setClient, World.setSurface,
            pthread_mutex_unlock, World.refcount, hq]

/-- Surface creation up to the native call, when the windowing surface
already has a client surface: the state `w5` reached after the native call,
and what the call returns from there. -/
theorem create_with_attached_client (vk : NativeVulkan) (a : Alloc) (w : World)
    (inst : VkInstance) (ci : VkWin32SurfaceCreateInfoKHR) (allocator : Ptr)
    (vs : VkSurfaceKHR) (s : wayland_surface) (c : wayland_client_surface)
    (halloc : a.record ≠ NULL) (hsurf : w.surfaces ci.hwnd = some s)
    (hA : s.client ≠ NULL) (hc : w.clients s.client = some c)
    (info : VkWaylandSurfaceCreateInfoKHR)
    (hinfo : info = { sType := VK_STRUCTURE_TYPE_WAYLAND_SURFACE_CREATE_INFO_KHR,
                      pNext := NULL, flags := 0, display := w.wl_display,
                      surface := c.wl_surface })
    (w5 : World)
    (hw5 : w5 =
      { surfaces := w.surfaces
        clients := Function.update w.clients s.client (some { c with ref := c.ref + 1 })
        records := Function.update w.records a.record
          (some { client := s.client, native := (vk.pvkCreateWaylandSurfaceKHR inst info 0).2 })
        wl_display := w.wl_display
        trace := w.trace ++ [.lock ci.hwnd, .get_client ci.hwnd, .unlock ci.hwnd,
          .vkCreateWaylandSurfaceKHR inst info] }) :
    wayland_vkCreateWin32SurfaceKHR vk a w inst ci allocator vs =
      if (vk.pvkCreateWaylandSurfaceKHR inst info 0).1 ≠ VK_SUCCESS then
        (wine_vk_surface_destroy w5 a.record).map
          fun w9 => (w9, (vk.pvkCreateWaylandSurfaceKHR inst info 0).1, vs)
      else some (w5, VK_SUCCESS, a.record) := by
  subst hinfo
  subst hw5
  simp [wayland_vkCreateWin32SurfaceKHR, halloc, wayland_surface_lock_hwnd, World.setRecord,
    hsurf, World.log, wayland_surface_get_client, hA, hc, World.setClient,
    pthread_mutex_unlock, wine_vk_surface_from_handle]

/-- Surface creation up to the native call, when the windowing surface has no
client surface and a new one is attached: the state `w5` reached after the
native call, and what the call returns from there. -/
theorem create_with_new_client (vk : NativeVulkan) (a : Alloc) (w : World)
    (inst : VkInstance) (ci : VkWin32SurfaceCreateInfoKHR) (allocator : Ptr)
    (vs : VkSurfaceKHR) (s : wayland_surface)
    (halloc : a.record ≠ NULL) (hsurf : w.surfaces ci.hwnd = some s)
    (hB : s.client = NULL) (hnew : a.client ≠ NULL)
    (info : VkWaylandSurfaceCreateInfoKHR)
    (hinfo : info = { sType := VK_STRUCTURE_TYPE_WAYLAND_SURFACE_CREATE_INFO_KHR,
                      pNext := NULL, flags := 0, display := w.wl_display,
                      surface := a.wl_surface })
    (w5 : World)
    (hw5 : w5 =
      { surfaces := Function.update w.surfaces ci.hwnd (some { s with client := a.client })
        clients := Function.update w.clients a.client
          (some { ref := 1, wl_surface := a.wl_surface, user_data := ci.hwnd })
        records := Function.update w.records a.record
          (some { client := a.client, native := (vk.pvkCreateWaylandSurfaceKHR inst info 0).2 })
        wl_display := w.wl_display
        trace := w.trace ++ [.lock ci.hwnd, .get_client ci.hwnd, .unlock ci.hwnd,
          .vkCreateWaylandSurfaceKHR inst info] }) :
    wayland_vkCreateWin32SurfaceKHR vk a w inst ci allocator vs =
      if (vk.pvkCreateWaylandSurfaceKHR inst info 0).1 ≠ VK_SUCCESS then
        (wine_vk_surface_destroy w5 a.record).map
          fun w9 => (w9, (vk.pvkCreateWaylandSurfaceKHR inst info 0).1, vs)
      else some (w5, VK_SUCCESS, a.record) := by
  subst hinfo
  subst hw5
  simp [wayland_vkCreateWin32SurfaceKHR, halloc, wayland_surface_lock_hwnd, World.setRecord,
    hsurf, World.log, wayland_surface_get_client, hB, hnew, World.setClient, World.setSurface,
    pthread_mutex_unlock, wine_vk_surface_from_handle]

/-- The events since `w` of a state whose trace extends the trace of `w`. -/
theorem since_of_trace_eq (w w1 : World) (l : List Event) (h : w1.trace = w.trace ++ l) :
    w.since w1 = l := by
  simp [World.since, h]

/-- C5 fails as stated: in the sample state the window `3` has no windowing
surface, the record allocation succeeds (address `512`), and surface creation
returns `VK_ERROR_OUT_OF_HOST_MEMORY`, not `VK_ERROR_SURFACE_LOST_KHR`. -/
theorem C5_counterexample :
    (wayland_surface_lock_hwnd sampleWorld 3).2 = none ∧
    (512 : Ptr) ≠ NULL ∧
    (wayland_vkCreateWin32SurfaceKHR sampleVk { record := 512, client := 0, wl_surface := 0 }
        sampleWorld 1 { sType := 0, pNext := 0, flags := 0, hinstance := 0, hwnd := 3 } 0 0).map
      (fun t => t.2.1) = some VK_ERROR_OUT_OF_HOST_MEMORY ∧
    ¬ ((wayland_vkCreateWin32SurfaceKHR sampleVk { record := 512, client := 0, wl_surface := 0 }
        sampleWorld 1 { sType := 0, pNext := 0, flags := 0, hinstance := 0, hwnd := 3 } 0 0).map
      (fun t => t.2.1) = some VK_ERROR_SURFACE_LOST_KHR) := by
  refine ⟨rfl, by decide, rfl, ?_⟩
  have h : (wayland_vkCreateWin32SurfaceKHR sampleVk
        { record := 512, client := 0, wl_surface := 0 }
        sampleWorld 1 { sType := 0, pNext := 0, flags := 0, hinstance := 0, hwnd := 3 } 0 0).map
      (fun t => t.2.1) = some VK_ERROR_OUT_OF_HOST_MEMORY := rfl
  rw [h]
  decide

/-- C5, amended: when the record allocation succeeds and the window handle
has no windowing surface, surface creation returns
`VK_ERROR_OUT_OF_HOST_MEMORY`; the record is freed again, the output handle
is not written, and the only external call is that `free`. -/
theorem C5_create_unresolved_window_out_of_host_memory (vk : NativeVulkan) (a : Alloc)
    (w : World) (inst : VkInstance) (ci : VkWin32SurfaceCreateInfoKHR) (allocator : Ptr)
    (vs : VkSurfaceKHR) (halloc : a.record ≠ NULL)
    (hlost : (wayland_surface_lock_hwnd w ci.hwnd).2 = none) :
    ∃ w1, wayland_vkCreateWin32SurfaceKHR vk a w inst ci allocator vs =
        some (w1, VK_ERROR_OUT_OF_HOST_MEMORY, vs) ∧
      w.since w1 = [.free a.record] ∧ w1.records a.record = none ∧
      w1.surfaces = w.surfaces ∧ w1.clients = w.clients := by
  have hs : w.surfaces ci.hwnd = none := by
    unfold wayland_surface_lock_hwnd at hlost
    cases h : w.surfaces ci.hwnd with
    | none => rfl
    | some s => simp [h] at hlost
  obtain ⟨w1, hw1⟩ : ∃ w1, wayland_vkCreateWin32SurfaceKHR vk a w inst ci allocator vs =
      some (w1, VK_ERROR_OUT_OF_HOST_MEMORY, vs) := by
    simp [wayland_vkCreateWin32SurfaceKHR, halloc, wayland_surface_lock_hwnd, World.setRecord,
      hs, wine_vk_surface_destroy]
  refine ⟨w1, hw1, ?_⟩
  simp [wayland_vkCreateWin32SurfaceKHR, halloc, wayland_surface_lock_hwnd, World.setRecord,
    hs, wine_vk_surface_destroy] at hw1
  subst hw1
  refine ⟨?_, ?_, rfl, rfl⟩
  · apply since_of_trace_eq
    simp [free, World.log, World.setRecord]
  · simp [free, World.log, World.setRecord]

/-- C5, amended, at the sample state and the window `3`. -/
theorem C5_create_unresolved_window_out_of_host_memory_witness :
    (512 : Ptr) ≠ NULL ∧ (wayland_surface_lock_hwnd sampleWorld 3).2 = none ∧
    ∃ w1, wayland_vkCreateWin32SurfaceKHR sampleVk { record := 512, client := 0, wl_surface := 0 }
        sampleWorld 1 { sType := 0, pNext := 0, flags := 0, hinstance := 0, hwnd := 3 } 0 0 =
        some (w1, VK_ERROR_OUT_OF_HOST_MEMORY, 0) ∧
      sampleWorld.since w1 = [.free 512] ∧ w1.records 512 = none ∧
      w1.surfaces = sampleWorld.surfaces ∧ w1.clients = sampleWorld.clients :=
  ⟨by decide, rfl,
    C5_create_unresolved_window_out_of_host_memory sampleVk
      { record := 512, client := 0, wl_surface := 0 } sampleWorld 1
      { sType := 0, pNext := 0, flags := 0, hinstance := 0, hwnd := 3 } 0 0 (by decide) rfl⟩

/-- Surface creation up to the native call, once the client reference is
acquired: `client` is the client surface acquired and `c5` its contents after
the acquisition.  There is a state `w5`, reached after the native call, from
which the call either rolls back or returns the new handle. -/
theorem create_reaches_native_call (vk : NativeVulkan) (a : Alloc) (w : World)
    (inst : VkInstance) (ci : VkWin32SurfaceCreateInfoKHR) (allocator : Ptr)
    (vs : VkSurfaceKHR) (s : wayland_surface) (client : Ptr) (c5 : wayland_client_surface)
    (halloc : a.record ≠ NULL) (hsurf : w.surfaces ci.hwnd = some s)
    (hacq :
      (s.client ≠ NULL ∧ client = s.client ∧
        ∃ c, w.clients s.client = some c ∧ c5 = { c with ref := c.ref + 1 }) ∨
      (s.client = NULL ∧ a.client ≠ NULL ∧ client = a.client ∧
        c5 = { ref := 1, wl_surface := a.wl_surface, user_data := ci.hwnd }))
    (info : VkWaylandSurfaceCreateInfoKHR)
    (hinfo : info = { sType := VK_STRUCTURE_TYPE_WAYLAND_SURFACE_CREATE_INFO_KHR,
                      pNext := NULL, flags := 0, display := w.wl_display,
                      surface := c5.wl_surface }) :
    ∃ w5,
      wayland_vkCreateWin32SurfaceKHR vk a w inst ci allocator vs =
        (if (vk.pvkCreateWaylandSurfaceKHR inst info 0).1 ≠ VK_SUCCESS then
          (wine_vk_surface_destroy w5 a.record).map
            fun w9 => (w9, (vk.pvkCreateWaylandSurfaceKHR inst info 0).1, vs)
        else some (w5, VK_SUCCESS, a.record)) ∧
      w5.trace = w.trace ++ [.lock ci.hwnd, .get_client ci.hwnd, .unlock ci.hwnd,
        .vkCreateWaylandSurfaceKHR inst info] ∧
      w5.records = Function.update w.records a.record
        (some { client := client, native := (vk.pvkCreateWaylandSurfaceKHR inst info 0).2 }) ∧
      w5.clients = Function.update w.clients client (some c5) := by
  rcases hacq with ⟨hA, hcl, c, hc, hc5⟩ | ⟨hB, hnew, hcl, hc5⟩
  · subst hcl
    subst hc5
    exact ⟨_, create_with_attached_client vk a w inst ci allocator vs s c halloc hsurf hA hc
      info hinfo _ rfl, rfl, rfl, rfl⟩
  · subst hcl
    subst hc5
    exact ⟨_, create_with_new_client vk a w inst ci allocator vs s halloc hsurf hB hnew
      info hinfo _ rfl, rfl, rfl, rfl⟩

/-- C7: when the record is allocated, the window has a windowing surface, a
client reference is acquired (the attached client surface, or a new one) and
the native surface creation returns a result `res` other than `VK_SUCCESS`,
the call returns `res` and leaves the output handle as it was; during the
call the client surface is acquired once and released once and the record is
freed once, and the record is no longer allocated afterwards. -/
theorem C7_create_native_failure_rolls_back (vk : NativeVulkan) (a : Alloc) (w : World)
    (inst : VkInstance) (ci : VkWin32SurfaceCreateInfoKHR) (allocator : Ptr)
    (vs : VkSurfaceKHR) (s : wayland_surface) (client wl : Ptr) (res : VkResult)
    (halloc : a.record ≠ NULL) (hsurf : w.surfaces ci.hwnd = some s)
    (hacq :
      (s.client ≠ NULL ∧ client = s.client ∧
        ∃ c, w.clients s.client = some c ∧ wl = c.wl_surface) ∨
      (s.client = NULL ∧ a.client ≠ NULL ∧ client = a.client ∧ wl = a.wl_surface))
    (hnative : (vk.pvkCreateWaylandSurfaceKHR inst
        { sType := VK_STRUCTURE_TYPE_WAYLAND_SURFACE_CREATE_INFO_KHR, pNext := NULL,
          flags := 0, display := w.wl_display, surface := wl } 0).1 = res)
    (hres : res ≠ VK_SUCCESS) :
    ∃ w1, wayland_vkCreateWin32SurfaceKHR vk a w inst ci allocator vs = some (w1, res, vs) ∧
      (w.since w1).countP Event.isGetClient = 1 ∧
      (w.since w1).countP Event.isRelease = 1 ∧
      (w.since w1).count (.client_release client) = 1 ∧
      (w.since w1).countP Event.isFree = 1 ∧
      (w.since w1).count (.free a.record) = 1 ∧
      w1.records a.record = none := by
  obtain ⟨c5, hacq5, hwl, hne⟩ : ∃ c5 : wayland_client_surface,
      ((s.client ≠ NULL ∧ client = s.client ∧
          ∃ c, w.clients s.client = some c ∧ c5 = { c with ref := c.ref + 1 }) ∨
        (s.client = NULL ∧ a.client ≠ NULL ∧ client = a.client ∧
          c5 = { ref := 1, wl_surface := a.wl_surface, user_data := ci.hwnd })) ∧
      wl = c5.wl_surface ∧ client ≠ NULL := by
    rcases hacq with ⟨hA, hcl, c, hc, hwl⟩ | ⟨hB, hnew, hcl, hwl⟩
    · exact ⟨{ c with ref := c.ref + 1 }, Or.inl ⟨hA, hcl, c, hc, rfl⟩, hwl, hcl ▸ hA⟩
    · exact ⟨{ ref := 1, wl_surface := a.wl_surface, user_data := ci.hwnd },
        Or.inr ⟨hB, hnew, hcl, rfl⟩, hwl, hcl ▸ hnew⟩
  subst hwl
  obtain ⟨w5, hcreate, htr5, hrec5, hcl5⟩ :=
    create_reaches_native_call vk a w inst ci allocator vs s client c5 halloc hsurf hacq5 _ rfl
  rw [hnative, if_pos hres] at hcreate
  obtain ⟨w1, l, hd, htr, hrel, hrelc, hfree, hfreep, _, hget, _, hrec, _⟩ :=
    wine_vk_surface_destroy_live w5 a.record
      { client := client, native := (vk.pvkCreateWaylandSurfaceKHR inst
        { sType := VK_STRUCTURE_TYPE_WAYLAND_SURFACE_CREATE_INFO_KHR, pNext := NULL,
          flags := 0, display := w.wl_display, surface := c5.wl_surface } 0).2 } c5
      (by rw [hrec5]; simp) hne (by rw [hcl5]; simp)
  have hsince : w.since w1 =
      [.lock ci.hwnd, .get_client ci.hwnd, .unlock ci.hwnd,
        .vkCreateWaylandSurfaceKHR inst
          { sType := VK_STRUCTURE_TYPE_WAYLAND_SURFACE_CREATE_INFO_KHR, pNext := NULL,
            flags := 0, display := w.wl_display, surface := c5.wl_surface }] ++ l := by
    apply since_of_trace_eq
    rw [htr, htr5, List.append_assoc]
  refine ⟨w1, ?_, ?_, ?_, ?_, ?_, ?_, ?_⟩
  · rw [hcreate, hd]
    rfl
  · rw [hsince, List.countP_append, hget]
    simp [Event.isGetClient]
  · rw [hsince, List.countP_append, hrel]
    simp [Event.isRelease]
  · rw [hsince, List.count_append, hrelc]
    simp
  · rw [hsince, List.countP_append, hfree]
    simp [Event.isFree]
  · rw [hsince, List.count_append, hfreep]
    simp
  · rw [hrec]
    simp

/-- C7 at the sample state, with a native library whose surface creation
fails with `-3`: the client surface of the window `2` is acquired, and the
call returns `-3` with the output handle still `0`. -/
theorem C7_create_native_failure_rolls_back_witness :
    (512 : Ptr) ≠ NULL ∧
    sampleWorld.surfaces 2 =
      some { client_rect := { left := 0, top := 0, right := 1024, bottom := 768 },
             client := 64 } ∧
    (failingVk.pvkCreateWaylandSurfaceKHR 1
        { sType := VK_STRUCTURE_TYPE_WAYLAND_SURFACE_CREATE_INFO_KHR, pNext := NULL,
          flags := 0, display := sampleWorld.wl_display, surface := 65 } 0).1 = -3 ∧
    (-3 : VkResult) ≠ VK_SUCCESS ∧
    ∃ w1, wayland_vkCreateWin32SurfaceKHR failingVk { record := 512, client := 0, wl_surface := 0 }
        sampleWorld 1 { sType := 0, pNext := 0, flags := 0, hinstance := 0, hwnd := 2 } 0 0 =
        some (w1, -3, 0) ∧
      (sampleWorld.since w1).countP Event.isGetClient = 1 ∧
      (sampleWorld.since w1).countP Event.isRelease = 1 ∧
      (sampleWorld.since w1).count (.client_release 64) = 1 ∧
      (sampleWorld.since w1).countP Event.isFree = 1 ∧
      (sampleWorld.since w1).count (.free 512) = 1 ∧
      w1.records 512 = none :=
  ⟨by decide, rfl, rfl, by decide,
    C7_create_native_failure_rolls_back failingVk { record := 512, client := 0, wl_surface := 0 }
      sampleWorld 1 { sType := 0, pNext := 0, flags := 0, hinstance := 0, hwnd := 2 } 0 0
      { client_rect := { left := 0, top := 0, right := 1024, bottom := 768 }, client := 64 }
      64 65 (-3) (by decide) rfl
      (Or.inl ⟨by decide, rfl, { ref := 2, wl_surface := 65, user_data := 2 }, rfl, rfl⟩)
      rfl (by decide)⟩

/-- A successful surface creation has allocated the record and acquired a
client reference, which raised the reference count of that client surface by
one; the allocator's client address is taken to be unused when a new client
surface is attached. -/
theorem create_success_acquired (vk : NativeVulkan) (a : Alloc) (w w1 : World)
    (inst : VkInstance) (ci : VkWin32SurfaceCreateInfoKHR) (allocator : Ptr)
    (vs h : VkSurfaceKHR) (s : wayland_surface)
    (hsurf : w.surfaces ci.hwnd = some s)
    (hfresh : s.client = NULL → w.clients a.client = none)
    (hcreate : wayland_vkCreateWin32SurfaceKHR vk a w inst ci allocator vs =
      some (w1, VK_SUCCESS, h)) :
    a.record ≠ NULL ∧
    ∃ (client : Ptr) (c5 : wayland_client_surface),
      ((s.client ≠ NULL ∧ client = s.client ∧
          ∃ c, w.clients s.client = some c ∧ c5 = { c with ref := c.ref + 1 }) ∨
        (s.client = NULL ∧ a.client ≠ NULL ∧ client = a.client ∧
          c5 = { ref := 1, wl_surface := a.wl_surface, user_data := ci.hwnd })) ∧
      client ≠ NULL ∧ c5.ref = w.refcount client + 1 := by
  have halloc : a.record ≠ NULL := by
    intro h0
    simp [wayland_vkCreateWin32SurfaceKHR, h0, VK_ERROR_OUT_OF_HOST_MEMORY, VK_SUCCESS]
      at hcreate
  refine ⟨halloc, ?_⟩
  by_cases hA : s.client ≠ NULL
  · cases hc : w.clients s.client with
    | none =>
      simp [wayland_vkCreateWin32SurfaceKHR, halloc, wayland_surface_lock_hwnd,
        World.setRecord, hsurf, World.log, wayland_surface_get_client, hA, hc] at hcreate
    | some c =>
      refine ⟨s.client, { c with ref := c.ref + 1 }, Or.inl ⟨hA, rfl, c, rfl, rfl⟩, hA, ?_⟩
      simp [World.refcount, hc]
  · have hB : s.client = NULL := not_not.1 hA
    by_cases hnew : a.client = NULL
    · simp [wayland_vkCreateWin32SurfaceKHR, halloc, wayland_surface_lock_hwnd,
        World.setRecord, hsurf, World.log, wayland_surface_get_client, hB, hnew,
        VK_ERROR_OUT_OF_HOST_MEMORY, VK_SUCCESS] at hcreate
    · refine ⟨a.client, { ref := 1, wl_surface := a.wl_surface, user_data := ci.hwnd },
        Or.inr ⟨hB, hnew, rfl, rfl⟩, hnew, ?_⟩
      simp [World.refcount, hfresh hB]

/-- C8: for a window that has a windowing surface, a surface creation that
returns `VK_SUCCESS` followed at once by the destruction of the returned
handle leaves every client surface with the reference count it had before
the creation: over the two calls there is one `wayland_surface_get_client`
and one `wayland_client_surface_release`, of the client surface the record
held; the native surface of the record is destroyed once, and the record is
freed once, which leaves the adapter records as they were.  The allocator is
taken to return addresses that are not in use. -/
theorem C8_create_then_destroy_restores_refcount (vk : NativeVulkan) (a : Alloc)
    (w w1 : World) (inst : VkInstance) (ci : VkWin32SurfaceCreateInfoKHR)
    (allocator allocator2 : Ptr) (vs h : VkSurfaceKHR) (s : wayland_surface)
    (hsurf : w.surfaces ci.hwnd = some s)
    (hfresh_record : w.records a.record = none)
    (hfresh_client : s.client = NULL → w.clients a.client = none)
    (hcreate : wayland_vkCreateWin32SurfaceKHR vk a w inst ci allocator vs =
      some (w1, VK_SUCCESS, h)) :
    ∃ w2 r, w1.records h = some r ∧
      wayland_vkDestroySurfaceKHR w1 inst h allocator2 = some w2 ∧
      (∀ q, w2.refcount q = w.refcount q) ∧
      (w.since w2).countP Event.isGetClient = 1 ∧
      (w.since w2).countP Event.isRelease = 1 ∧
      (w.since w2).count (.client_release r.client) = 1 ∧
      (w.since w2).countP Event.isDestroySurface = 1 ∧
      (w.since w2).count (.vkDestroySurfaceKHR inst r.native) = 1 ∧
      (w.since w2).countP Event.isFree = 1 ∧
      (w.since w2).count (.free h) = 1 ∧
      w2.records = w.records := by
  obtain ⟨halloc, client, c5, hacq, hne, hc5ref⟩ :=
    create_success_acquired vk a w w1 inst ci allocator vs h s hsurf hfresh_client hcreate
  obtain ⟨w5, hcall, htr5, hrec5, hcl5⟩ :=
    create_reaches_native_call vk a w inst ci allocator vs s client c5 halloc hsurf hacq _ rfl
  rw [hcall] at hcreate
  split at hcreate
  · rename_i hfail
    simp only [Option.map_eq_some', Prod.mk.injEq] at hcreate
    obtain ⟨_, _, _, hres, _⟩ := hcreate
    exact absurd hres hfail
  · simp only [Option.some.injEq, Prod.mk.injEq] at hcreate
    obtain ⟨hw, _, hh⟩ := hcreate
    subst hw
    subst hh
    have hrec : w5.records a.record = some
        { client := client, native := (vk.pvkCreateWaylandSurfaceKHR inst
          { sType := VK_STRUCTURE_TYPE_WAYLAND_SURFACE_CREATE_INFO_KHR, pNext := NULL,
            flags := 0, display := w.wl_display, surface := c5.wl_surface } 0).2 } := by
      rw [hrec5]
      simp
    obtain ⟨w2, l, hd, htr, hrel, hrelc, hfree, hfreep, _, hget, hdes, hrecs, hrc⟩ :=
      wine_vk_surface_destroy_live
        (w5.log (.vkDestroySurfaceKHR inst (vk.pvkCreateWaylandSurfaceKHR inst
          { sType := VK_STRUCTURE_TYPE_WAYLAND_SURFACE_CREATE_INFO_KHR, pNext := NULL,
            flags := 0, display := w.wl_display, surface := c5.wl_surface } 0).2))
        a.record _ c5 hrec hne (by show w5.clients client = some c5; rw [hcl5]; simp)
    have hsince : w.since w2 =
        [.lock ci.hwnd, .get_client ci.hwnd, .unlock ci.hwnd,
          .vkCreateWaylandSurfaceKHR inst
            { sType := VK_STRUCTURE_TYPE_WAYLAND_SURFACE_CREATE_INFO_KHR, pNext := NULL,
              flags := 0, display := w.wl_display, surface := c5.wl_surface },
          .vkDestroySurfaceKHR inst (vk.pvkCreateWaylandSurfaceKHR inst
            { sType := VK_STRUCTURE_TYPE_WAYLAND_SURFACE_CREATE_INFO_KHR, pNext := NULL,
              flags := 0, display := w.wl_display, surface := c5.wl_surface } 0).2] ++ l := by
      apply since_of_trace_eq
      rw [htr]
      simp [World.log, htr5]
    refine ⟨w2, _, hrec, ?_, ?_, ?_, ?_, ?_, ?_, ?_, ?_, ?_, ?_⟩
    · simp only [wayland_vkDestroySurfaceKHR, wine_vk_surface_from_handle, halloc, if_false,
        hrec]
      exact hd
    · intro q
      rw [hrc q]
      have h5 : ∀ p, (w5.log (.vkDestroySurfaceKHR inst (vk.pvkCreateWaylandSurfaceKHR inst
          { sType := VK_STRUCTURE_TYPE_WAYLAND_SURFACE_CREATE_INFO_KHR, pNext := NULL,
            flags := 0, display := w.wl_display, surface := c5.wl_surface } 0).2)).refcount p =
          if p = client then c5.ref else w.refcount p := by
        intro p
        by_cases hp : p = client
        · subst hp
          simp [World.refcount, World.log, hcl5]
        · simp [World.refcount, World.log, hcl5, hp]
      rw [h5 q]
      by_cases hq : q = client
      · subst hq
        simp only [if_true, hc5ref]
        omega
      · simp only [hq, if_false]
    · rw [hsince, List.countP_append, hget]
      simp [Event.isGetClient]
    · rw [hsince, List.countP_append, hrel]
      simp [Event.isRelease]
    · rw [hsince, List.count_append, hrelc]
      simp
    · rw [hsince, List.countP_append, hdes]
      simp [Event.isDestroySurface]
    · rw [hsince, List.count_append]
      have hzero : l.count (.vkDestroySurfaceKHR inst (vk.pvkCreateWaylandSurfaceKHR inst
          { sType := VK_STRUCTURE_TYPE_WAYLAND_SURFACE_CREATE_INFO_KHR, pNext := NULL,
            flags := 0, display := w.wl_display, surface := c5.wl_surface } 0).2) = 0 := by
        rw [List.count_eq_zero]
        intro hmem
        have hpos : 0 < l.countP Event.isDestroySurface :=
          List.countP_pos_iff.2 ⟨_, hmem, rfl⟩
        omega
      rw [hzero]
      simp
    · rw [hsince, List.countP_append, hfree]
      simp [Event.isFree]
    · rw [hsince, List.count_append, hfreep]
      simp
    · rw [hrecs]
      show Function.update w5.records a.record none = w.records
      rw [hrec5, Function.update_idem]
      funext p
      by_cases hp : p = a.record
      · subst hp
        simp [hfresh_record]
      · simp [Function.update_noteq hp]

/-- C8 at the sample state: a surface is created for the window `1`, which
has no client surface yet, and destroyed at once. -/
theorem C8_create_then_destroy_restores_refcount_witness :
    sampleWorld.surfaces 1 =
      some { client_rect := { left := 10, top := 20, right := 810, bottom := 620 },
             client := NULL } ∧
    sampleWorld.records 512 = none ∧
    sampleWorld.clients 96 = none ∧
    ∃ w1,
      wayland_vkCreateWin32SurfaceKHR sampleVk { record := 512, client := 96, wl_surface := 97 }
        sampleWorld 1 { sType := 0, pNext := 0, flags := 0, hinstance := 0, hwnd := 1 } 0 0 =
        some (w1, VK_SUCCESS, 512) ∧
      ∃ w2 r, w1.records 512 = some r ∧
        wayland_vkDestroySurfaceKHR w1 1 512 0 = some w2 ∧
        (∀ q, w2.refcount q = sampleWorld.refcount q) ∧
        (sampleWorld.since w2).countP Event.isGetClient = 1 ∧
        (sampleWorld.since w2).countP Event.isRelease = 1 ∧
        (sampleWorld.since w2).count (.client_release r.client) = 1 ∧
        (sampleWorld.since w2).countP Event.isDestroySurface = 1 ∧
        (sampleWorld.since w2).count (.vkDestroySurfaceKHR 1 r.native) = 1 ∧
        (sampleWorld.since w2).countP Event.isFree = 1 ∧
        (sampleWorld.since w2).count (.free 512) = 1 ∧
        w2.records = sampleWorld.records :=
  ⟨rfl, rfl, rfl, _, rfl,
    C8_create_then_destroy_restores_refcount sampleVk
      { record := 512, client := 96, wl_surface := 97 } sampleWorld _ 1
      { sType := 0, pNext := 0, flags := 0, hinstance := 0, hwnd := 1 } 0 0 0 512
      { client_rect := { left := 10, top := 20, right := 810, bottom := 620 }, client := NULL }
      rfl rfl (fun _ => rfl) rfl⟩

/-- The load lines reach their end exactly when every `LOAD_FUNCPTR` entry
point resolves. -/
theorem load_funcptrs_ok (ld : Loader) (h : Ptr) (l : List (String × Bool))
    (pvk : String → Ptr) :
    (load_funcptrs ld h l pvk).2 = true ↔ ∀ x ∈ l, x.2 = true → ld.dlsym h x.1 ≠ NULL := by
  induction l generalizing pvk with
  | nil => simp [load_funcptrs]
  | cons x rest ih =>
    obtain ⟨f, required⟩ := x
    unfold load_funcptrs
    by_cases hfail : required = true ∧ ld.dlsym h f = NULL
    · simp only [hfail, and_self, if_true]
      constructor
      · intro hf
        exact absurd hf (by decide)
      · intro hall
        exact absurd hfail.2 (hall _ (List.mem_cons_self _ _) rfl)
    · simp only [hfail, if_false, ih, List.mem_cons, forall_eq_or_imp]
      constructor
      · intro hall
        exact ⟨fun hreq hnull => hfail ⟨hreq, hnull⟩, hall⟩
      · intro hall
        exact hall.2

/-- After `wine_vk_init`, `vulkan_handle` is not null exactly when the
library loads and the ten required entry points resolve. -/
theorem wine_vk_init_handle (ld : Loader) (d : Driver) :
    (wine_vk_init ld d).vulkan_handle ≠ NULL ↔
      (ld.dlopen ≠ NULL ∧
        ∀ f ∈ ["vkCreateInstance", "vkCreateWaylandSurfaceKHR", "vkDestroyInstance",
          "vkDestroySurfaceKHR", "vkEnumerateInstanceExtensionProperties",
          "vkGetDeviceProcAddr", "vkGetInstanceProcAddr",
          "vkGetPhysicalDeviceSurfaceCapabilitiesKHR",
          "vkGetPhysicalDeviceSurfaceFormatsKHR",
          "vkGetPhysicalDeviceSurfaceSupportKHR"],
          ld.dlsym ld.dlopen f ≠ NULL) := by
  unfold wine_vk_init
  by_cases hopen : ld.dlopen = NULL
  · simp [hopen]
  · simp only [hopen, if_false]
    have hok := load_funcptrs_ok ld ld.dlopen load_sequence d.pvk
    cases hload : load_funcptrs ld ld.dlopen load_sequence d.pvk with
    | mk pvk ok =>
      rw [hload] at hok
      cases ok with
      | true =>
        have hall := hok.1 rfl
        simp only [load_sequence, List.mem_cons, forall_eq_or_imp] at hall
        simp only [ne_eq, hopen, not_false_eq_true, true_and, List.mem_cons, forall_eq_or_imp]
        simp_all
      | false =>
        simp only [ne_eq, not_true_eq_false, false_iff, not_and, hopen, not_false_eq_true,
          true_implies]
        intro hall
        have : (false = true) := hok.2 (by
          intro x hx hreq
          simp only [load_sequence, List.mem_cons, List.mem_singleton, List.not_mem_nil,
            or_false] at hx
          rcases hx with h | h | h | h | h | h | h | h | h | h | h | h <;> subst h <;>
            first
              | (simp at hreq; done)
              | exact hall _ (by simp))
        exact absurd this (by decide)

/-- `wine_vk_init` leaves `init_once` alone. -/
theorem wine_vk_init_once (ld : Loader) (d : Driver) :
    (wine_vk_init ld d).init_once = d.init_once := by
  unfold wine_vk_init
  by_cases hopen : ld.dlopen = NULL
  · simp [hopen]
  · simp only [hopen, if_false]
    cases hload : load_funcptrs ld ld.dlopen load_sequence d.pvk with
    | mk pvk ok => cases ok <;> rfl

/-- What the accessor returns from a state `d`, in terms of the state the
one-time initialisation leaves. -/
theorem get_vulkan_driver_result (V : Nat) (ld : Loader) (d : Driver) (version : Nat) :
    ((WAYLAND_wine_get_vulkan_driver V ld d version).2 = some vulkan_funcs ↔
      (version = V ∧ (pthread_once d (wine_vk_init ld)).vulkan_handle ≠ NULL)) ∧
    ((WAYLAND_wine_get_vulkan_driver V ld d version).2 = none ↔
      ¬ (version = V ∧ (pthread_once d (wine_vk_init ld)).vulkan_handle ≠ NULL)) := by
  unfold WAYLAND_wine_get_vulkan_driver
  by_cases hv : version = V
  · by_cases hh : (pthread_once d (wine_vk_init ld)).vulkan_handle = NULL
    · simp [hv, hh]
    · simp [hv, hh]
  · simp [hv]

/-- C11: from the statics at process start, the accessor returns the table
exactly when the version is `WINE_VULKAN_DRIVER_VERSION`, the native library
loads and the ten required entry points resolve, and it returns null in
every other case; the two optional entry points,
`vkGetPhysicalDeviceSurfaceCapabilities2KHR` and
`vkGetPhysicalDeviceSurfaceFormats2KHR`, are not among the conditions.  The
initialisation runs once: a later call, whatever the loader would do then,
returns the table exactly when its version matches and that first
initialisation succeeded. -/
theorem C11_driver_accessor_version_and_init (V : Nat) (ld ld2 : Loader)
    (version version2 : Nat) :
    ((WAYLAND_wine_get_vulkan_driver V ld Driver.initial version).2 = some vulkan_funcs ↔
      (version = V ∧ ld.dlopen ≠ NULL ∧
        ∀ f ∈ ["vkCreateInstance", "vkCreateWaylandSurfaceKHR", "vkDestroyInstance",
          "vkDestroySurfaceKHR", "vkEnumerateInstanceExtensionProperties",
          "vkGetDeviceProcAddr", "vkGetInstanceProcAddr",
          "vkGetPhysicalDeviceSurfaceCapabilitiesKHR",
          "vkGetPhysicalDeviceSurfaceFormatsKHR",
          "vkGetPhysicalDeviceSurfaceSupportKHR"],
          ld.dlsym ld.dlopen f ≠ NULL)) ∧
    ((WAYLAND_wine_get_vulkan_driver V ld Driver.initial version).2 = none ↔
      ¬ (version = V ∧ ld.dlopen ≠ NULL ∧
        ∀ f ∈ ["vkCreateInstance", "vkCreateWaylandSurfaceKHR", "vkDestroyInstance",
          "vkDestroySurfaceKHR", "vkEnumerateInstanceExtensionProperties",
          "vkGetDeviceProcAddr", "vkGetInstanceProcAddr",
          "vkGetPhysicalDeviceSurfaceCapabilitiesKHR",
          "vkGetPhysicalDeviceSurfaceFormatsKHR",
          "vkGetPhysicalDeviceSurfaceSupportKHR"],
          ld.dlsym ld.dlopen f ≠ NULL)) ∧
    ((WAYLAND_wine_get_vulkan_driver V ld2
        (WAYLAND_wine_get_vulkan_driver V ld Driver.initial V).1 version2).2 =
        some vulkan_funcs ↔
      (version2 = V ∧ ld.dlopen ≠ NULL ∧
        ∀ f ∈ ["vkCreateInstance", "vkCreateWaylandSurfaceKHR", "vkDestroyInstance",
          "vkDestroySurfaceKHR", "vkEnumerateInstanceExtensionProperties",
          "vkGetDeviceProcAddr", "vkGetInstanceProcAddr",
          "vkGetPhysicalDeviceSurfaceCapabilitiesKHR",
          "vkGetPhysicalDeviceSurfaceFormatsKHR",
          "vkGetPhysicalDeviceSurfaceSupportKHR"],
          ld.dlsym ld.dlopen f ≠ NULL)) := by
  have honce : pthread_once Driver.initial (wine_vk_init ld) =
      wine_vk_init ld { Driver.initial with init_once := true } := rfl
  have hfirst : (WAYLAND_wine_get_vulkan_driver V ld Driver.initial V).1 =
      wine_vk_init ld { Driver.initial with init_once := true } := by
    unfold WAYLAND_wine_get_vulkan_driver
    simp only [ne_eq, not_true_eq_false, if_false, honce]
    split <;> rfl
  have hagain : pthread_once (wine_vk_init ld { Driver.initial with init_once := true })
      (wine_vk_init ld2) = wine_vk_init ld { Driver.initial with init_once := true } := by
    unfold pthread_once
    rw [wine_vk_init_once]
    rfl
  refine ⟨?_, ?_, ?_⟩
  · rw [(get_vulkan_driver_result V ld Driver.initial version).1, honce, wine_vk_init_handle]
  · rw [(get_vulkan_driver_result V ld Driver.initial version).2, honce, wine_vk_init_handle]
  · rw [hfirst, (get_vulkan_driver_result V ld2 _ version2).1, hagain, wine_vk_init_handle]

/-- C11 at the sample loaders: with the version `11` expected, a library
that lacks only the two optional entry points gives the table, a library
that lacks `vkCreateWaylandSurfaceKHR` gives null and closes the library, the
version `10` gives null, and after a failed initialisation a later call with
a good loader still gives null. -/
theorem C11_driver_accessor_version_and_init_witness :
    (WAYLAND_wine_get_vulkan_driver 11 sampleLoader Driver.initial 11).2 = some vulkan_funcs ∧
    sampleLoader.dlsym 4242 "vkGetPhysicalDeviceSurfaceCapabilities2KHR" = NULL ∧
    sampleLoader.dlsym 4242 "vkGetPhysicalDeviceSurfaceFormats2KHR" = NULL ∧
    (WAYLAND_wine_get_vulkan_driver 11 noWaylandLoader Driver.initial 11).2 = none ∧
    (WAYLAND_wine_get_vulkan_driver 11 noWaylandLoader Driver.initial 11).1.closed = [4242] ∧
    (WAYLAND_wine_get_vulkan_driver 11 sampleLoader Driver.initial 10).2 = none ∧
    (WAYLAND_wine_get_vulkan_driver 11 sampleLoader
      (WAYLAND_wine_get_vulkan_driver 11 noWaylandLoader Driver.initial 11).1 11).2 = none := by
  refine ⟨?_, by decide, by decide, ?_, by decide, ?_, ?_⟩
  · exact (C11_driver_accessor_version_and_init 11 sampleLoader sampleLoader 11 11).1.2
      ⟨rfl, by decide, by decide⟩
  · exact (C11_driver_accessor_version_and_init 11 noWaylandLoader sampleLoader 11 11).2.1.2
      (by decide)
  · exact (C11_driver_accessor_version_and_init 11 sampleLoader sampleLoader 10 11).2.1.2
      (by decide)
  · decide

/-- The copy loop keeps the length of the caller's array. -/
theorem copy_formats_length (host : List VkSurfaceFormatKHR) (k i : Nat)
    (l : List VkSurfaceFormat2KHR) : (copy_formats host k i l).length = l.length := by
  induction k generalizing i l with
  | zero => rfl
  | succ k ih =>
    unfold copy_formats
    split
    · rw [ih, List.length_set]
    · rw [ih]

/-- The copy loop, record by record: at the indices the loop visits the
`surfaceFormat` field holds the native format and the other fields are kept;
the other records are kept whole. -/
theorem copy_formats_get (host : List VkSurfaceFormatKHR) (k i : Nat)
    (l : List VkSurfaceFormat2KHR) (j : Nat) :
    (copy_formats host k i l)[j]? =
      if i ≤ j ∧ j < i + k then
        l[j]?.map fun f => { f with surfaceFormat := host[j]?.getD f.surfaceFormat }
      else l[j]? := by
  induction k generalizing i l with
  | zero =>
    have h : ¬ (i ≤ j ∧ j < i + 0) := by omega
    rw [if_neg h]
    rfl
  | succ k ih =>
    unfold copy_formats
    by_cases hj : j = i
    · subst hj
      have h1 : ¬ (j + 1 ≤ j ∧ j < j + 1 + k) := by omega
      have h3 : (j ≤ j ∧ j < j + (k + 1)) := by omega
      split
      · rename_i f h hf hh
        have hlt : j < l.length := by
          rcases List.getElem?_eq_some.1 hf with ⟨h, _⟩
          exact h
        rw [ih, if_neg h1, if_pos h3, List.getElem?_set, hf, hh]
        simp [hlt]
      · rename_i hno
        rw [ih, if_neg h1, if_pos h3]
        cases hf : l[j]? with
        | none => rfl
        | some f =>
          cases hh : host[j]? with
          | none => rfl
          | some h => exact absurd hh (hno f h hf)
    · have h2 : (i + 1 ≤ j ∧ j < i + 1 + k) ↔ (i ≤ j ∧ j < i + (k + 1)) := by omega
      have hne : i ≠ j := fun h => hj h.symm
      split
      · rw [ih, List.getElem?_set_ne hne]
        simp only [h2]
      · rw [ih]
        simp only [h2]

/-- C12: on a valid surface, when the native library lacks the extended
entry point, the caller passes an array and the temporary array is
allocated, the call returns the result `res` and the count `n` of the
non-extended native call.  When `res` is `VK_SUCCESS` or `VK_INCOMPLETE`,
every record below `n` comes back with the native format at its index in
`surfaceFormat` and its other fields as they were, and the records from `n`
on come back as they were; for any other `res` the whole array comes back as
it was. -/
theorem C12_formats2_emulation_copies (vk : NativeVulkan) (w : World)
    (phys_dev : VkPhysicalDevice) (info : VkPhysicalDeviceSurfaceInfo2KHR) (count : Nat)
    (formats : List VkSurfaceFormat2KHR) (r : wine_vk_surface) (c : wayland_client_surface)
    (s : wayland_surface) (res : VkResult) (n : Nat) (written : List VkSurfaceFormatKHR)
    (hrec : w.records info.surface = some r)
    (hclient : w.clients r.client = some c)
    (hvalid : (wayland_surface_lock_hwnd w c.user_data).2 = some s)
    (hext : vk.pvkGetPhysicalDeviceSurfaceFormats2KHR = none)
    (hnative : vk.pvkGetPhysicalDeviceSurfaceFormatsKHR phys_dev r.native count
        (some (List.replicate count { format := 0, colorSpace := 0 })) = (res, n, written)) :
    ∃ w1 out,
      wayland_vkGetPhysicalDeviceSurfaceFormats2KHR vk true w phys_dev info count
          (some formats) = some (w1, res, n, some out) ∧
      w.since w1 = [.lock c.user_data, .unlock c.user_data,
        .vkGetPhysicalDeviceSurfaceFormatsKHR r.native] ∧
      out.length = formats.length ∧
      ((res = VK_SUCCESS ∨ res = VK_INCOMPLETE) →
        (∀ (i : Nat) (f : VkSurfaceFormat2KHR) (h : VkSurfaceFormatKHR),
          i < n → formats[i]? = some f → written[i]? = some h →
          out[i]? = some { f with surfaceFormat := h }) ∧
        (∀ i : Nat, n ≤ i → out[i]? = formats[i]?)) ∧
      (¬ (res = VK_SUCCESS ∨ res = VK_INCOMPLETE) → out = formats) := by
  have hs : w.surfaces c.user_data = some s := by
    unfold wayland_surface_lock_hwnd at hvalid
    cases h : w.surfaces c.user_data with
    | none => simp [h] at hvalid
    | some s1 =>
      simp only [h] at hvalid
      rw [← hvalid]
  have hisvalid : wine_vk_surface_is_valid w r =
      some ((w.log (.lock c.user_data)).log (.unlock c.user_data), true) := by
    simp [wine_vk_surface_is_valid, wine_vk_surface_get_hwnd, hclient,
      wayland_surface_lock_hwnd, hs, pthread_mutex_unlock]
  by_cases hcopy : res = VK_SUCCESS ∨ res = VK_INCOMPLETE
  · refine ⟨((w.log (.lock c.user_data)).log (.unlock c.user_data)).log
        (.vkGetPhysicalDeviceSurfaceFormatsKHR r.native),
      copy_formats written n 0 formats, ?_, ?_, ?_, ?_, ?_⟩
    · simp [wayland_vkGetPhysicalDeviceSurfaceFormats2KHR, wine_vk_surface_from_handle, hrec,
        hisvalid, hext, hnative, hcopy]
    · apply since_of_trace_eq
      simp [World.log]
    · exact copy_formats_length written n 0 formats
    · intro _
      constructor
      · intro i f h hi hf hh
        have hin : 0 ≤ i ∧ i < 0 + n := by omega
        rw [copy_formats_get, if_pos hin, hf, hh]
        rfl
      · intro i hi
        have hout : ¬ (0 ≤ i ∧ i < 0 + n) := by omega
        rw [copy_formats_get, if_neg hout]
    · intro hno
      exact absurd hcopy hno
  · refine ⟨((w.log (.lock c.user_data)).log (.unlock c.user_data)).log
        (.vkGetPhysicalDeviceSurfaceFormatsKHR r.native), formats, ?_, ?_, rfl, ?_, ?_⟩
    · simp [wayland_vkGetPhysicalDeviceSurfaceFormats2KHR, wine_vk_surface_from_handle, hrec,
        hisvalid, hext, hnative, hcopy]
    · apply since_of_trace_eq
      simp [World.log]
    · intro hyes
      exact absurd hyes hcopy
    · intro _
      rfl

/-- C12 at the sample state: the surface at `128` is valid, the sample
library has no extended entry point and reports one format; the first record
of the caller receives it and keeps its `sType` and `pNext`, the second
record is untouched. -/
theorem C12_formats2_emulation_copies_witness :
    sampleWorld.records 128 = some { client := 64, native := 77 } ∧
    sampleWorld.clients 64 = some { ref := 2, wl_surface := 65, user_data := 2 } ∧
    (wayland_surface_lock_hwnd sampleWorld 2).2 =
      some { client_rect := { left := 0, top := 0, right := 1024, bottom := 768 },
             client := 64 } ∧
    sampleVk.pvkGetPhysicalDeviceSurfaceFormatsKHR 0 77 2
        (some (List.replicate 2 { format := 0, colorSpace := 0 })) =
      (VK_SUCCESS, 1, [{ format := 44, colorSpace := 0 }, { format := 0, colorSpace := 0 }]) ∧
    ∃ w1 out,
      wayland_vkGetPhysicalDeviceSurfaceFormats2KHR sampleVk true sampleWorld 0
          { sType := 0, pNext := 0, surface := 128 } 2 (some sampleFormats) =
        some (w1, VK_SUCCESS, 1, some out) ∧
      sampleWorld.since w1 = [.lock 2, .unlock 2, .vkGetPhysicalDeviceSurfaceFormatsKHR 77] ∧
      out.length = sampleFormats.length ∧
      ((VK_SUCCESS = VK_SUCCESS ∨ VK_SUCCESS = VK_INCOMPLETE) →
        (∀ (i : Nat) (f : VkSurfaceFormat2KHR) (h : VkSurfaceFormatKHR),
          i < 1 → sampleFormats[i]? = some f →
          [({ format := 44, colorSpace := 0 } : VkSurfaceFormatKHR),
            { format := 0, colorSpace := 0 }][i]? = some h →
          out[i]? = some { f with surfaceFormat := h }) ∧
        (∀ i : Nat, 1 ≤ i → out[i]? = sampleFormats[i]?)) ∧
      (¬ (VK_SUCCESS = VK_SUCCESS ∨ VK_SUCCESS = VK_INCOMPLETE) → out = sampleFormats) :=
  ⟨rfl, rfl, rfl, rfl,
    C12_formats2_emulation_copies sampleVk sampleWorld 0
      { sType := 0, pNext := 0, surface := 128 } 2 sampleFormats
      { client := 64, native := 77 } { ref := 2, wl_surface := 65, user_data := 2 }
      { client_rect := { left := 0, top := 0, right := 1024, bottom := 768 }, client := 64 }
      VK_SUCCESS 1 [{ format := 44, colorSpace := 0 }, { format := 0, colorSpace := 0 }]
      rfl rfl rfl rfl rfl⟩

/-- C13: for a record that holds a live client surface,
`wine_vk_surface_destroy` returns; `last` is what
`wayland_client_surface_release` reports to it.  When the release reports the
last reference and the window of the client surface still has a windowing
surface, the back-reference `client` of that windowing surface is set to
null and nothing else in the registry changes; in every other case the
registry is left as it was.  When the window resolves, the lock is taken
before the release and given back after it, before the record is freed; when
it does not, no lock is taken. -/
theorem C13_destroy_clears_back_reference (w : World) (p : Ptr) (r : wine_vk_surface)
    (c : wayland_client_surface) (hr : w.records p = some r) (hne : r.client ≠ NULL)
    (hc : w.clients r.client = some c) :
    ∃ w1 w2 last,
      wayland_client_surface_release (wayland_surface_lock_hwnd w c.user_data).1 r.client =
        some (w2, last) ∧
      wine_vk_surface_destroy w p = some w1 ∧
      ((last = true ∧ (wayland_surface_lock_hwnd w c.user_data).2.isSome = true) →
        w1.surfaces = Function.update w.surfaces c.user_data
          ((w.surfaces c.user_data).map fun s => { s with client := NULL })) ∧
      (¬ (last = true ∧ (wayland_surface_lock_hwnd w c.user_data).2.isSome = true) →
        w1.surfaces = w.surfaces) ∧
      ((wayland_surface_lock_hwnd w c.user_data).2.isSome = true →
        w.since w1 = [.lock c.user_data, .client_release r.client, .unlock c.user_data,
          .free p]) ∧
      ((wayland_surface_lock_hwnd w c.user_data).2 = none →
        w.since w1 = [.client_release r.client, .free p]) := by
  cases hs : w.surfaces c.user_data with
  | none =>
    by_cases hlast : c.ref - 1 ≠ 0
    · obtain ⟨w2, hw2⟩ : ∃ w2, wayland_client_surface_release
          (wayland_surface_lock_hwnd w c.user_data).1 r.client = some (w2, false) := by
        simp [wayland_surface_lock_hwnd, hs, wayland_client_surface_release, hc, hlast, World.log,
          World.setClient]
      obtain ⟨w1, hw1⟩ : ∃ w1, wine_vk_surface_destroy w p = some w1 := by
        simp [wine_vk_surface_destroy, hr, hne, wine_vk_surface_get_hwnd, hc,
          wayland_surface_lock_hwnd, hs, wayland_client_surface_release, hlast, World.log,
          World.setClient]
      refine ⟨w1, w2, false, hw2, hw1, ?_⟩
      simp [wine_vk_surface_destroy, hr, hne, wine_vk_surface_get_hwnd, hc,
        wayland_surface_lock_hwnd, hs, wayland_client_surface_release, hlast, World.log,
        World.setClient] at hw1
      subst hw1
      refine ⟨?_, ?_, ?_, ?_⟩
      · intro hcond
        simp [wayland_surface_lock_hwnd, hs] at hcond
      · intro _
        simp [free, World.log, World.setRecord, World.setClient, World.setSurface,
          pthread_mutex_unlock]
      · intro hsome
        simp [wayland_surface_lock_hwnd, hs] at hsome
      · intro hnone
        apply since_of_trace_eq
        simp [free, World.log, World.setRecord, World.setClient, World.setSurface,
          pthread_mutex_unlock]
    · obtain ⟨w2, hw2⟩ : ∃ w2, wayland_client_surface_release
          (wayland_surface_lock_hwnd w c.user_data).1 r.client = some (w2, true) := by
        simp [wayland_surface_lock_hwnd, hs, wayland_client_surface_release, hc, hlast, World.log,
          World.setClient]
      obtain ⟨w1, hw1⟩ : ∃ w1, wine_vk_surface_destroy w p = some w1 := by
        simp [wine_vk_surface_destroy, hr, hne, wine_vk_surface_get_hwnd, hc,
          wayland_surface_lock_hwnd, hs, wayland_client_surface_release, hlast, World.log,
          World.setClient]
      refine ⟨w1, w2, true, hw2, hw1, ?_⟩
      simp [wine_vk_surface_destroy, hr, hne, wine_vk_surface_get_hwnd, hc,
        wayland_surface_lock_hwnd, hs, wayland_client_surface_release, hlast, World.log,
        World.setClient] at hw1
      subst hw1
      refine ⟨?_, ?_, ?_, ?_⟩
      · intro hcond
        simp [wayland_surface_lock_hwnd, hs] at hcond
      · intro _
        simp [free, World.log, World.setRecord, World.setClient, World.setSurface,
          pthread_mutex_unlock]
      · intro hsome
        simp [wayland_surface_lock_hwnd, hs] at hsome
      · intro hnone
        apply since_of_trace_eq
        simp [free, World.log, World.setRecord, World.setClient, World.setSurface,
          pthread_mutex_unlock]
  | some s =>
    by_cases hlast : c.ref - 1 ≠ 0
    · obtain ⟨w2, hw2⟩ : ∃ w2, wayland_client_surface_release
          (wayland_surface_lock_hwnd w c.user_data).1 r.client = some (w2, false) := by
        simp [wayland_surface_lock_hwnd, hs, wayland_client_surface_release, hc, hlast, World.log,
          World.setClient]
      obtain ⟨w1, hw1⟩ : ∃ w1, wine_vk_surface_destroy w p = some w1 := by
        simp [wine_vk_surface_destroy, hr, hne, wine_vk_surface_get_hwnd, hc,
          wayland_surface_lock_hwnd, hs, wayland_client_surface_release, hlast, World.log,
          World.setClient]
      refine ⟨w1, w2, false, hw2, hw1, ?_⟩
      simp [wine_vk_surface_destroy, hr, hne, wine_vk_surface_get_hwnd, hc,
        wayland_surface_lock_hwnd, hs, wayland_client_surface_release, hlast, World.log,
        World.setClient] at hw1
      subst hw1
      refine ⟨?_, ?_, ?_, ?_⟩
      · intro hcond
        simp [wayland_surface_lock_hwnd, hs] at hcond
      · intro _
        simp [free, World.log, World.setRecord, World.setClient, World.setSurface,
          pthread_mutex_unlock]
      · intro hsome
        apply since_of_trace_eq
        simp [free, World.log, World.setRecord, World.setClient, World.setSurface,
          pthread_mutex_unlock]
      · intro hnone
        simp [wayland_surface_lock_hwnd, hs] at hnone
    · obtain ⟨w2, hw2⟩ : ∃ w2, wayland_client_surface_release
          (wayland_surface_lock_hwnd w c.user_data).1 r.client = some (w2, true) := by
        simp [wayland_surface_lock_hwnd, hs, wayland_client_surface_release, hc, hlast, World.log,
          World.setClient]
      obtain ⟨w1, hw1⟩ : ∃ w1, wine_vk_surface_destroy w p = some w1 := by
        simp [wine_vk_surface_destroy, hr, hne, wine_vk_surface_get_hwnd, hc,
          wayland_surface_lock_hwnd, hs, wayland_client_surface_release, hlast, World.log,
          World.setClient]
      refine ⟨w1, w2, true, hw2, hw1, ?_⟩
      simp [wine_vk_surface_destroy, hr, hne, wine_vk_surface_get_hwnd, hc,
        wayland_surface_lock_hwnd, hs, wayland_client_surface_release, hlast, World.log,
        World.setClient] at hw1
      subst hw1
      refine ⟨?_, ?_, ?_, ?_⟩
      · intro hcond
        simp [wayland_surface_lock_hwnd, hs] at hcond
        simp [free, World.log, World.setRecord, World.setClient, World.setSurface,
          pthread_mutex_unlock, hs]
      · intro hn
        simp [wayland_surface_lock_hwnd, hs] at hn
      · intro hsome
        apply since_of_trace_eq
        simp [free, World.log, World.setRecord, World.setClient, World.setSurface,
          pthread_mutex_unlock]
      · intro hnone
        simp [wayland_surface_lock_hwnd, hs] at hnone

/-- C13 at a record that holds the last reference to the client surface of
a window that still resolves: the back-reference of the windowing surface is
null afterwards, and the lock is taken and given back around the release. -/
theorem C13_destroy_clears_back_reference_witness :
    lastRefWorld.records 384 = some { client := 72, native := 79 } ∧
    (72 : Ptr) ≠ NULL ∧
    lastRefWorld.clients 72 = some { ref := 1, wl_surface := 73, user_data := 4 } ∧
    (∃ w1 w2 last,
      wayland_client_surface_release (wayland_surface_lock_hwnd lastRefWorld 4).1 72 =
        some (w2, last) ∧
      wine_vk_surface_destroy lastRefWorld 384 = some w1 ∧
      ((last = true ∧ (wayland_surface_lock_hwnd lastRefWorld 4).2.isSome = true) →
        w1.surfaces = Function.update lastRefWorld.surfaces 4
          ((lastRefWorld.surfaces 4).map fun s => { s with client := NULL })) ∧
      (¬ (last = true ∧ (wayland_surface_lock_hwnd lastRefWorld 4).2.isSome = true) →
        w1.surfaces = lastRefWorld.surfaces) ∧
      ((wayland_surface_lock_hwnd lastRefWorld 4).2.isSome = true →
        lastRefWorld.since w1 = [.lock 4, .client_release 72, .unlock 4, .free 384]) ∧
      ((wayland_surface_lock_hwnd lastRefWorld 4).2 = none →
        lastRefWorld.since w1 = [.client_release 72, .free 384])) ∧
    (wine_vk_surface_destroy lastRefWorld 384).map (fun w1 => w1.surfaces 4) =
      some (some { client_rect := { left := 0, top := 0, right := 320, bottom := 200 },
                   client := NULL }) ∧
    (wine_vk_surface_destroy sampleWorld 128).map (fun w1 => w1.surfaces 2) =
      some (sampleWorld.surfaces 2) :=
  ⟨rfl, by decide, rfl,
    C13_destroy_clears_back_reference lastRefWorld 384 { client := 72, native := 79 }
      { ref := 1, wl_surface := 73, user_data := 4 } rfl (by decide) rfl,
    by decide, by decide⟩

end WaylandVk
